import Mathlib

/-!
# Shallow embedding of `bygui86/multi-profile` (`profile.go`)

This file embeds the profiling-session manager of the repository
`bygui86/multi-profile` into Lean 4 and proves properties of it.

The Go package manages one `Profile` session per profiling kind.  All
side effects the code performs (filesystem calls, the `runtime/pprof`
collectors, the global runtime switches, logging) are modelled
explicitly:

* filesystem and collector results are supplied by an `Env` record (an
  oracle giving the result of each external call);
* the global runtime switches (`runtime.MemProfileRate`, the mutex
  profile fraction, the block profile rate) live in a `RuntimeState`
  record threaded through every operation;
* every externally visible action (directory creation, file creation,
  collector start/stop, lookup, write, close, every log line, the
  closer hook) is appended to an event trace;
* a Go `panic` is modelled by the `Outcome.panicked` constructor.

Field and function names follow `profile.go`.  The internal closer
(`p.internalCloser`, a Go method value `p.stop<Mode>Mode`) is
represented by the tag of the stop method it denotes, interpreted by
`runStop`; `fmt.Sprintf` instantiations are modelled by the
corresponding string concatenations, and `filepath.Join` by
`filepathJoin` (without the `Clean` normalisation, which no property
here depends on).
-/

set_option maxHeartbeats 1000000

namespace MultiProfile

/-- The five logging levels of `profile.go` (`debugLevel` .. `fatalLevel`). -/
inductive logLevel where
  | debug | info | warn | error | fatal
  deriving DecidableEq, Repr

/-- The seven profiling modes (`cpuMode` .. `goroutineMode` in `profile.go`). -/
inductive profileMode where
  | cpuMode | memMode | mutexMode | blockMode | traceMode | threadMode | goroutineMode
  deriving DecidableEq, Repr

/-- The string value of each mode constant (`string(p.mode)` in Go). -/
def profileMode.str : profileMode → String
  | .cpuMode => "CPU"
  | .memMode => "Memory"
  | .mutexMode => "Mutex"
  | .blockMode => "Block"
  | .traceMode => "Trace"
  | .threadMode => "Thread"
  | .goroutineMode => "Goroutine"

/-- `DefaultPath` constant. -/
def DefaultPath : String := "./"

/-- `DefaultMemProfileRate` constant. -/
def DefaultMemProfileRate : Int := 4096

/-- `MemProfileHeap` constant. -/
def MemProfileHeap : String := "heap"

/-- `MemProfileAllocs` constant. -/
def MemProfileAllocs : String := "allocs"

/-- `DefaultMemProfileType` constant. -/
def DefaultMemProfileType : String := MemProfileHeap

/-- Externally visible actions of the session manager, recorded in order. -/
inductive Event where
  /-- a method of an injected `Logger` was invoked
      (`formatted` distinguishes `Infof`-style from `Info`-style methods) -/
  | loggerCall (formatted : Bool) (level : logLevel) (msg : String)
  /-- a line was printed to standard output by the default logger -/
  | stdout (formatted : Bool) (level : logLevel) (msg : String)
  /-- `os.MkdirAll(path, 0777)` was called -/
  | mkdirAll (path : String)
  /-- `ioutil.TempDir("", "profile_")` was called -/
  | tempDirMk
  /-- `os.Create(path)` was called -/
  | osCreate (path : String)
  /-- `Close()` was called on the session file (`none` = nil file) -/
  | fileClose (f : Option Nat)
  /-- `pprof.StartCPUProfile` was called -/
  | pprofStartCPU
  /-- `pprof.StopCPUProfile` was called -/
  | pprofStopCPU
  /-- `trace.Start` was called -/
  | traceStart
  /-- `trace.Stop` was called -/
  | traceStop
  /-- `pprof.Lookup(name)` was called -/
  | pprofLookup (name : String)
  /-- `WriteTo` was called on the looked-up profile with the session file -/
  | pprofWriteTo (name : String) (f : Option Nat)
  /-- the caller-supplied closer hook was invoked -/
  | closerHookRun
  /-- the interrupt-hook goroutine was spawned -/
  | spawnInterruptHook
  deriving DecidableEq, Repr

/-- Result oracle for every external call the code can make. -/
structure Env where
  /-- result of `ioutil.TempDir("", "profile_")`: the fresh directory or an error -/
  tempDirRes : Except String String
  /-- result of `os.MkdirAll path 0777`: `some err` or `none` for success -/
  mkdirRes : String → Option String
  /-- result of `os.Create path`: a file handle or an error -/
  createRes : String → Except String Nat
  /-- error of `pprof.StartCPUProfile`, if any -/
  cpuStartRes : Option String
  /-- error of `trace.Start`, if any -/
  traceStartRes : Option String
  /-- whether `pprof.Lookup name` returns a non-nil profile -/
  lookupOk : String → Bool
  /-- error of `WriteTo`, if any -/
  writeToRes : Option String
  /-- error of `Close` on a file, if any -/
  closeRes : Option Nat → Option String

/-- Result of a computation that can `panic` (Go panic aborts the process). -/
inductive Outcome (α : Type) where
  | ok (a : α)
  | panicked (err : String)
  deriving Repr

/-- The global runtime switches mutated by the package. -/
structure RuntimeState where
  /-- `runtime.MemProfileRate` -/
  memProfileRate : Int
  /-- value set by `runtime.SetMutexProfileFraction` -/
  mutexProfileFraction : Int
  /-- value set by `runtime.SetBlockProfileRate` -/
  blockProfileRate : Int
  deriving DecidableEq, Repr

/-- The `Profile` struct of `profile.go`.  The injected logger is
represented by its presence (`hasLogger`); its method calls are events.
`internalCloser` stores the tag of the `stop<Mode>Mode` method value. -/
structure Profile where
  mode : profileMode
  lookupName : String
  path : String
  useTempPath : Bool
  fileName : String
  filePath : String
  file : Option Nat
  panicIfFail : Bool
  enableInterruptHook : Bool
  quiet : Bool
  memProfileRate : Int
  memProfileType : String
  internalCloser : Option profileMode
  closerHook : Bool
  hasLogger : Bool
  previousMemProfileRate : Int
  started : Nat
  deriving DecidableEq, Repr

/-- The `Config` struct of `profile.go` (`CloserHook` and `Logger` are
function/interface values; only their presence matters to the model). -/
structure Config where
  Path : String
  UseTempPath : Bool
  PanicIfFail : Bool
  EnableInterruptHook : Bool
  Quiet : Bool
  MemProfileRate : Int
  MemProfileType : String
  CloserHook : Bool
  Logger : Bool
  deriving DecidableEq, Repr

/-- Whole-session state: the profile, the global runtime switches and the
event trace accumulated so far. -/
structure PState where
  prof : Profile
  rt : RuntimeState
  events : List Event
  deriving DecidableEq, Repr

/-- Model of `filepath.Join(dir, file)` (without `Clean` normalisation). -/
def filepathJoin (dir file : String) : String :=
  if dir = "" then file
  else if dir.endsWith "/" then dir ++ file
  else dir ++ "/" ++ file

/-- Events produced by one call of the `log` helper (`profile.go:546`):
nothing when quiet, the matching leveled method of the injected logger
when present, otherwise a line on standard output. -/
def Profile.logEvents (p : Profile) (level : logLevel) (msg : String) : List Event :=
  if p.quiet then []
  else if p.hasLogger then [.loggerCall false level msg]
  else [.stdout false level msg]

/-- Events produced by one call of the `logf` helper (`profile.go:570`),
with the format string already instantiated. -/
def Profile.logfEvents (p : Profile) (level : logLevel) (msg : String) : List Event :=
  if p.quiet then []
  else if p.hasLogger then [.loggerCall true level msg]
  else [.stdout true level msg]

/-- `buildProfile` (`profile.go:444`). -/
def buildProfile (mode : profileMode) (lookupName fileName : String) (cfg : Config) : Profile :=
  { mode := mode
    lookupName := lookupName
    path := cfg.Path
    useTempPath := cfg.UseTempPath
    fileName := fileName
    filePath := ""
    file := none
    panicIfFail := cfg.PanicIfFail
    enableInterruptHook := cfg.EnableInterruptHook
    quiet := cfg.Quiet
    memProfileRate := 0
    memProfileType := ""
    internalCloser := none
    closerHook := cfg.CloserHook
    hasLogger := cfg.Logger
    previousMemProfileRate := 0
    started := 0 }

/-- `CPUProfile` constructor. -/
def CPUProfile (cfg : Config) : Profile :=
  buildProfile .cpuMode "" "cpu.pprof" cfg

/-- `MemProfile` constructor, applying the rate/type defaults. -/
def MemProfile (cfg : Config) : Profile :=
  let memRate := if cfg.MemProfileRate > 0 then cfg.MemProfileRate else DefaultMemProfileRate
  let memType := if cfg.MemProfileType ≠ "" then cfg.MemProfileType else DefaultMemProfileType
  let memPprof := buildProfile .memMode memType "mem.pprof" cfg
  { memPprof with memProfileRate := memRate, memProfileType := memType }

/-- `MutexProfile` constructor. -/
def MutexProfile (cfg : Config) : Profile :=
  buildProfile .mutexMode "mutex" "mutex.pprof" cfg

/-- `BlockProfile` constructor. -/
def BlockProfile (cfg : Config) : Profile :=
  buildProfile .blockMode "block" "block.pprof" cfg

/-- `TraceProfile` constructor. -/
def TraceProfile (cfg : Config) : Profile :=
  buildProfile .traceMode "" "trace.pprof" cfg

/-- `ThreadCreationProfile` constructor. -/
def ThreadCreationProfile (cfg : Config) : Profile :=
  buildProfile .threadMode "thread" "thread.pprof" cfg

/-- `GoroutineProfile` constructor. -/
def GoroutineProfile (cfg : Config) : Profile :=
  buildProfile .goroutineMode "goroutine" "goroutine.pprof" cfg

/-- The constructor used for each mode. -/
def mkProfile : profileMode → Config → Profile
  | .cpuMode, cfg => CPUProfile cfg
  | .memMode, cfg => MemProfile cfg
  | .mutexMode, cfg => MutexProfile cfg
  | .blockMode, cfg => BlockProfile cfg
  | .traceMode, cfg => TraceProfile cfg
  | .threadMode, cfg => ThreadCreationProfile cfg
  | .goroutineMode, cfg => GoroutineProfile cfg

/-- A fresh session state from a profile and an initial runtime state. -/
def initS (p : Profile) (rt : RuntimeState) : PState :=
  { prof := p, rt := rt, events := [] }

/-- Append raw effect events to the trace. -/
def emit (s : PState) (evs : List Event) : PState :=
  { s with events := s.events ++ evs }

/-- One call of the `log` helper applied to the session state. -/
def logS (s : PState) (level : logLevel) (msg : String) : PState :=
  emit s (s.prof.logEvents level msg)

/-- One call of the `logf` helper applied to the session state, with the
format string already instantiated. -/
def logfS (s : PState) (level : logLevel) (msg : String) : PState :=
  emit s (s.prof.logfEvents level msg)

/-- `createFile` (`profile.go:461`): sets `filePath`, calls `os.Create`
(`file` becomes nil on failure), logs the failure and panics when
`panicIfFail` is set. -/
def createFile (env : Env) (s : PState) : Outcome PState :=
  let fp := filepathJoin s.prof.path s.prof.fileName
  let s1 : PState := emit { s with prof := { s.prof with filePath := fp } } [.osCreate fp]
  match env.createRes fp with
  | .ok fd => .ok { s1 with prof := { s1.prof with file := some fd } }
  | .error e =>
      let s2 : PState := { s1 with prof := { s1.prof with file := none } }
      let s3 := logfS s2 .error
        (s2.prof.mode.str ++ " profiling file " ++ fp ++ " creation failed: " ++ e)
      if s3.prof.panicIfFail then .panicked e else .ok s3

/-- `prepareCustomPath` (`profile.go:520`): defaults a blank path to
`DefaultPath` and calls `os.MkdirAll` for any other path. -/
def prepareCustomPath (env : Env) (s : PState) : Option String × PState :=
  let s1 : PState :=
    if s.prof.path = "" then { s with prof := { s.prof with path := DefaultPath } } else s
  if s1.prof.path ≠ DefaultPath then
    let s2 : PState := emit s1 [.mkdirAll s1.prof.path]
    match env.mkdirRes s1.prof.path with
    | some e => (some e, s2)
    | none => (none, s2)
  else (none, s1)

/-- `prepareTempPath` (`profile.go:536`): `p.path, err = ioutil.TempDir(...)`
(on failure Go's `TempDir` returns the empty string). -/
def prepareTempPath (env : Env) (s : PState) : Option String × PState :=
  let s1 : PState := emit s [.tempDirMk]
  match env.tempDirRes with
  | .ok d => (none, { s1 with prof := { s1.prof with path := d } })
  | .error e => (some e, { s1 with prof := { s1.prof with path := "" } })

/-- `preparePath` (`profile.go:499`): dispatches on `useTempPath`, logs a
preparation error and panics when `panicIfFail` is set (the Go code
repeats the `panicIfFail` test in a dead else-branch; the behaviour is
the one modelled here). -/
def preparePath (env : Env) (s : PState) : Outcome PState :=
  match (if s.prof.useTempPath then prepareTempPath env s else prepareCustomPath env s) with
  | (none, s1) => .ok s1
  | (some e, s1) =>
      let s2 := logfS s1 .error
        (s1.prof.mode.str ++ " profiling start aborted, could not create output directory: " ++ e)
      if s2.prof.panicIfFail then .panicked e else .ok s2

/-- `startCpuMode` (`profile.go:288`). -/
def startCpuMode (env : Env) (s : PState) : Outcome PState :=
  match createFile env s with
  | .panicked e => .panicked e
  | .ok s1 =>
    let s2 : PState := emit s1 [.pprofStartCPU]
    let afterStart : Outcome PState :=
      match env.cpuStartRes with
      | none => .ok s2
      | some e =>
          let s3 := logfS s2 .error ("CPU profiling start failed: " ++ e)
          if s3.prof.panicIfFail then .panicked e else .ok s3
    match afterStart with
    | .panicked e => .panicked e
    | .ok s4 =>
      let s5 : PState := { s4 with prof := { s4.prof with internalCloser := some .cpuMode } }
      .ok (logfS s5 .info ("CPU profiling enabled, file " ++ s5.prof.filePath))

/-- `startMemMode` (`profile.go:305`): saves the previous global rate,
installs the configured one, installs the stop closure and logs. -/
def startMemMode (env : Env) (s : PState) : Outcome PState :=
  match createFile env s with
  | .panicked e => .panicked e
  | .ok s1 =>
    let s2 : PState := { s1 with
      prof := { s1.prof with previousMemProfileRate := s1.rt.memProfileRate } }
    let s3 : PState := { s2 with rt := { s2.rt with memProfileRate := s2.prof.memProfileRate } }
    let s4 : PState := { s3 with prof := { s3.prof with internalCloser := some .memMode } }
    .ok (logfS s4 .info
      ("Memory profiling (" ++ s4.prof.memProfileType ++ ") enabled at rate "
        ++ toString s4.rt.memProfileRate ++ ", file " ++ s4.prof.filePath))

/-- `startMutexMode` (`profile.go:317`): `runtime.SetMutexProfileFraction(1)`. -/
def startMutexMode (env : Env) (s : PState) : Outcome PState :=
  match createFile env s with
  | .panicked e => .panicked e
  | .ok s1 =>
    let s2 : PState := { s1 with rt := { s1.rt with mutexProfileFraction := 1 } }
    let s3 : PState := { s2 with prof := { s2.prof with internalCloser := some .mutexMode } }
    .ok (logfS s3 .info ("Mutex profiling enabled, file " ++ s3.prof.filePath))

/-- `startBlockMode` (`profile.go:327`): `runtime.SetBlockProfileRate(1)`. -/
def startBlockMode (env : Env) (s : PState) : Outcome PState :=
  match createFile env s with
  | .panicked e => .panicked e
  | .ok s1 =>
    let s2 : PState := { s1 with rt := { s1.rt with blockProfileRate := 1 } }
    let s3 : PState := { s2 with prof := { s2.prof with internalCloser := some .blockMode } }
    .ok (logfS s3 .info ("Block profiling enabled, file " ++ s3.prof.filePath))

/-- `startTraceMode` (`profile.go:337`). -/
def startTraceMode (env : Env) (s : PState) : Outcome PState :=
  match createFile env s with
  | .panicked e => .panicked e
  | .ok s1 =>
    let s2 : PState := emit s1 [.traceStart]
    let afterStart : Outcome PState :=
      match env.traceStartRes with
      | none => .ok s2
      | some e =>
          let s3 := logfS s2 .error ("Trace profiling start failed: " ++ e)
          if s3.prof.panicIfFail then .panicked e else .ok s3
    match afterStart with
    | .panicked e => .panicked e
    | .ok s4 =>
      let s5 : PState := { s4 with prof := { s4.prof with internalCloser := some .traceMode } }
      .ok (logfS s5 .info ("Trace profiling enabled, file " ++ s5.prof.filePath))

/-- `startThreadCreationMode` (`profile.go:354`). -/
def startThreadCreationMode (env : Env) (s : PState) : Outcome PState :=
  match createFile env s with
  | .panicked e => .panicked e
  | .ok s1 =>
    let s2 : PState := { s1 with prof := { s1.prof with internalCloser := some .threadMode } }
    .ok (logfS s2 .info ("Thread profiling enabled, file " ++ s2.prof.filePath))

/-- `startGoroutineMode` (`profile.go:363`). -/
def startGoroutineMode (env : Env) (s : PState) : Outcome PState :=
  match createFile env s with
  | .panicked e => .panicked e
  | .ok s1 =>
    let s2 : PState := { s1 with prof := { s1.prof with internalCloser := some .goroutineMode } }
    .ok (logfS s2 .info ("Goroutine profiling enabled, file " ++ s2.prof.filePath))

/-- The `switch p.mode` dispatch inside `Start` (`profile.go:240`). -/
def startModeDispatch (env : Env) (s : PState) : Outcome PState :=
  match s.prof.mode with
  | .cpuMode => startCpuMode env s
  | .memMode => startMemMode env s
  | .mutexMode => startMutexMode env s
  | .blockMode => startBlockMode env s
  | .traceMode => startTraceMode env s
  | .threadMode => startThreadCreationMode env s
  | .goroutineMode => startGoroutineMode env s

/-- `startInterruptHook` (`profile.go:426`): logs and spawns the listener
goroutine when enabled (the listener itself is concurrency, outside this
model; spawning it is recorded as an event). -/
def startInterruptHook (s : PState) : PState :=
  if s.prof.enableInterruptHook then
    let s1 := logfS s .info ("Start interrupt hook for " ++ s.prof.mode.str ++ " profiling")
    emit s1 [.spawnInterruptHook]
  else s

/-- `Start` (`profile.go:232`): the compare-and-swap on `started` (a win
iff `started = 0`), then path preparation, mode dispatch, interrupt hook. -/
def Start (env : Env) (s : PState) : Outcome PState :=
  if s.prof.started = 0 then
    match preparePath env { s with prof := { s.prof with started := 1 } } with
    | .panicked e => .panicked e
    | .ok s1 =>
      match startModeDispatch env s1 with
      | .panicked e => .panicked e
      | .ok s2 => .ok (startInterruptHook s2)
  else .ok s

/-- `stopAndFlush` (`profile.go:475`): lookup, write, close, log. -/
def stopAndFlush (env : Env) (s : PState) : PState :=
  let p := s.prof
  let s1 := logfS s .info
    ("Stop and flush " ++ p.lookupName ++ " lookup for " ++ p.mode.str
      ++ " profiling to file " ++ p.filePath)
  let s2 : PState := emit s1 [.pprofLookup p.lookupName]
  let s3 : PState :=
    if env.lookupOk p.lookupName then
      let s3a : PState := emit s2 [.pprofWriteTo p.lookupName p.file]
      match env.writeToRes with
      | some e => logfS s3a .error
          (p.mode.str ++ " profiling flushing data to file " ++ p.filePath ++ " failed: " ++ e)
      | none => s3a
    else
      logfS s2 .error
        (p.mode.str ++ " profiling flushing data to file " ++ p.filePath
          ++ " failed: pprof lookup returned nil profile")
  let s4 : PState := emit s3 [.fileClose p.file]
  let s5 : PState :=
    match env.closeRes p.file with
    | some e => logfS s4 .error
        (p.mode.str ++ " profiling flushing data to file " ++ p.filePath ++ " failed: " ++ e)
    | none => s4
  logfS s5 .info (p.mode.str ++ " profiling disabled")

/-- `stopCpuMode` (`profile.go:372`). -/
def stopCpuMode (env : Env) (s : PState) : PState :=
  let p := s.prof
  let s1 := logfS s .info ("Stop and flush CPU profiling to file " ++ p.filePath)
  let s2 : PState := emit s1 [.pprofStopCPU, .fileClose p.file]
  let s3 : PState :=
    match env.closeRes p.file with
    | some e => logfS s2 .error
        ("CPU profiling flushing data to file " ++ p.filePath ++ " failed: " ++ e)
    | none => s2
  logS s3 .info "CPU profiling disabled"

/-- `stopMemMode` (`profile.go:385`): flush, then restore the saved
global memory profile rate. -/
def stopMemMode (env : Env) (s : PState) : PState :=
  let s1 := stopAndFlush env s
  let s2 : PState :=
    { s1 with rt := { s1.rt with memProfileRate := s1.prof.previousMemProfileRate } }
  { s2 with prof := { s2.prof with previousMemProfileRate := -1 } }

/-- `stopMutexMode` (`profile.go:393`): flush, then
`runtime.SetMutexProfileFraction(0)`. -/
def stopMutexMode (env : Env) (s : PState) : PState :=
  let s1 := stopAndFlush env s
  { s1 with rt := { s1.rt with mutexProfileFraction := 0 } }

/-- `stopBlockMode` (`profile.go:400`): flush, then
`runtime.SetBlockProfileRate(0)`. -/
def stopBlockMode (env : Env) (s : PState) : PState :=
  let s1 := stopAndFlush env s
  { s1 with rt := { s1.rt with blockProfileRate := 0 } }

/-- `stopTraceMode` (`profile.go:407`). -/
def stopTraceMode (_env : Env) (s : PState) : PState :=
  let p := s.prof
  let s1 := logfS s .info ("Stop and flush trace profiling to file " ++ p.filePath)
  let s2 : PState := emit s1 [.traceStop]
  logS s2 .info "Trace profiling disabled"

/-- `stopThreadCreationMode` (`profile.go:416`). -/
def stopThreadCreationMode (env : Env) (s : PState) : PState :=
  stopAndFlush env s

/-- `stopGoroutineMode` (`profile.go:421`). -/
def stopGoroutineMode (env : Env) (s : PState) : PState :=
  stopAndFlush env s

/-- Interpretation of the stored internal-closer tag: runs the
`stop<Mode>Mode` method it denotes. -/
def runStop (env : Env) (s : PState) : profileMode → PState
  | .cpuMode => stopCpuMode env s
  | .memMode => stopMemMode env s
  | .mutexMode => stopMutexMode env s
  | .blockMode => stopBlockMode env s
  | .traceMode => stopTraceMode env s
  | .threadMode => stopThreadCreationMode env s
  | .goroutineMode => stopGoroutineMode env s

/-- The final step of `Stop`: invoke the caller-supplied closer hook
when one was configured (`if p.closerHook != nil`). -/
def runCloserHook (s : PState) : PState :=
  if s.prof.closerHook then emit s [.closerHookRun] else s

/-- `Stop` (`profile.go:272`): the compare-and-swap on `started` (a win
iff `started = 1`), then the internal closer (when non-nil), then the
caller-supplied closer hook (when non-nil). -/
def Stop (env : Env) (s : PState) : PState :=
  if s.prof.started = 1 then
    runCloserHook
      (match s.prof.internalCloser with
       | some m => runStop env { s with prof := { s.prof with started := 0 } } m
       | none => { s with prof := { s.prof with started := 0 } })
  else s

/-- One public call on a session. -/
inductive Call where
  | start
  | stop
  deriving DecidableEq, Repr

/-- One step of the public interface (`Stop` never panics). -/
def step (env : Env) (c : Call) (s : PState) : Outcome PState :=
  match c with
  | .start => Start env s
  | .stop => .ok (Stop env s)


/-! ## Derived notions used by the properties -/

/-- Is this event a log action at the error level? -/
def Event.isErrorLog : Event → Bool
  | .loggerCall _ .error _ => true
  | .stdout _ .error _ => true
  | _ => false

/-- The message of an info-level log action, when the event is one. -/
def Event.infoMsg : Event → Option String
  | .loggerCall _ .info m => some m
  | .stdout _ .info m => some m
  | _ => none

/-- Is this event a file-creation call (`os.Create`)? -/
def Event.isCreate : Event → Bool
  | .osCreate _ => true
  | _ => false

/-- Is this event a directory-preparation call (`MkdirAll` / `TempDir`)? -/
def Event.isDirPrep : Event → Bool
  | .mkdirAll _ => true
  | .tempDirMk => true
  | _ => false

/-- Is this event any log action (stdout line or injected-logger call)? -/
def Event.isLog : Event → Bool
  | .loggerCall _ _ _ => true
  | .stdout _ _ _ => true
  | _ => false

/-- The path `prepareCustomPath` works with: a blank configured path
defaults to `DefaultPath`. -/
def effectivePath (p : Profile) : String :=
  if p.path = "" then DefaultPath else p.path

/-- The directory a winning `Start` resolves: the environment-supplied
temporary directory when `useTempPath` is set (the empty string on a
`TempDir` failure, as in Go), the effective configured path otherwise. -/
def resolvedPath (env : Env) (p : Profile) : String :=
  if p.useTempPath then
    match env.tempDirRes with
    | .ok d => d
    | .error _ => ""
  else effectivePath p

/-- The directory-preparation error `preparePath` encounters, if any. -/
def prepFailure (env : Env) (p : Profile) : Option String :=
  if p.useTempPath then
    match env.tempDirRes with
    | .ok _ => none
    | .error e => some e
  else if effectivePath p ≠ DefaultPath then env.mkdirRes (effectivePath p)
  else none

/-- The per-kind default file name stated by the spec. -/
def defaultFileName : profileMode → String
  | .cpuMode => "cpu.pprof"
  | .memMode => "mem.pprof"
  | .mutexMode => "mutex.pprof"
  | .blockMode => "block.pprof"
  | .traceMode => "trace.pprof"
  | .threadMode => "thread.pprof"
  | .goroutineMode => "goroutine.pprof"

/-- The kinds whose collector is a point-in-time snapshot flushed by
`stopAndFlush` (all kinds except CPU and trace). -/
def isSnapshotKind : profileMode → Bool
  | .cpuMode => false
  | .traceMode => false
  | _ => true

/-- An environment in which every external call succeeds. -/
def Env.allOk (env : Env) : Prop :=
  (∃ d, env.tempDirRes = .ok d) ∧
  (∀ pth, env.mkdirRes pth = none) ∧
  (∀ pth, ∃ fd, env.createRes pth = .ok fd) ∧
  env.cpuStartRes = none ∧
  env.traceStartRes = none ∧
  env.writeToRes = none ∧
  (∀ f, env.closeRes f = none)

/-- A concrete all-success environment, for witnesses. -/
def okEnv : Env :=
  { tempDirRes := .ok "/tmp/profile_123"
    mkdirRes := fun _ => none
    createRes := fun _ => .ok 3
    cpuStartRes := none
    traceStartRes := none
    lookupOk := fun _ => true
    writeToRes := none
    closeRes := fun _ => none }

/-- A concrete default configuration, for witnesses. -/
def cfg0 : Config :=
  { Path := ""
    UseTempPath := false
    PanicIfFail := false
    EnableInterruptHook := false
    Quiet := false
    MemProfileRate := 0
    MemProfileType := ""
    CloserHook := false
    Logger := false }

/-- A concrete initial runtime state, for witnesses. -/
def rt0 : RuntimeState :=
  { memProfileRate := 524288, mutexProfileFraction := 0, blockProfileRate := 0 }

/-- Conclusions common to all seven `start<Mode>Mode` functions on a
non-panicking run. -/
def StartCommonOk (env : Env) (s s' : PState) : Prop :=
  s'.prof.started = s.prof.started ∧
  s'.prof.quiet = s.prof.quiet ∧
  s'.prof.hasLogger = s.prof.hasLogger ∧
  s'.prof.closerHook = s.prof.closerHook ∧
  s'.prof.panicIfFail = s.prof.panicIfFail ∧
  s'.prof.mode = s.prof.mode ∧
  s'.prof.path = s.prof.path ∧
  s'.prof.fileName = s.prof.fileName ∧
  s'.prof.lookupName = s.prof.lookupName ∧
  s'.prof.useTempPath = s.prof.useTempPath ∧
  s'.prof.enableInterruptHook = s.prof.enableInterruptHook ∧
  s'.prof.memProfileRate = s.prof.memProfileRate ∧
  s'.prof.memProfileType = s.prof.memProfileType ∧
  s'.prof.filePath = filepathJoin s.prof.path s.prof.fileName ∧
  (∀ fd, env.createRes (filepathJoin s.prof.path s.prof.fileName) = Except.ok fd →
    s'.prof.file = some fd) ∧
  (∀ e, env.createRes (filepathJoin s.prof.path s.prof.fileName) = Except.error e →
    s'.prof.file = none) ∧
  ∃ t, s'.events = s.events ++ Event.osCreate (filepathJoin s.prof.path s.prof.fileName) :: t ∧
    t.filter Event.isCreate = [] ∧ t.filter Event.isDirPrep = [] ∧
    Event.closerHookRun ∉ t ∧
    (s.prof.quiet = false → ∃ pre, ∃ ev ∈ t,
      ev.infoMsg = some (pre ++ filepathJoin s.prof.path s.prof.fileName)) ∧
    (∀ e, env.createRes (filepathJoin s.prof.path s.prof.fileName) = Except.error e →
      s.prof.quiet = false → ∃ ev ∈ t, ev.isErrorLog = true)


/-- Is this event the closer-hook invocation? -/
def Event.isCH : Event → Bool
  | .closerHookRun => true
  | _ => false



/-- An environment in which every file creation fails. -/
def badCreateEnv : Env :=
  { okEnv with createRes := fun _ => Except.error "boom" }

/-- The default configuration with the quiet flag set. -/
def cfgQuiet : Config :=
  { cfg0 with Quiet := true }

/-- The default configuration with a closer hook configured. -/
def cfgHook : Config :=
  { cfg0 with CloserHook := true }

/-- The default configuration with a custom output directory. -/
def cfgCustom : Config :=
  { cfg0 with Path := "out" }

/-- A runtime state whose mutex profile fraction is 5 before any Start. -/
def rt5 : RuntimeState :=
  { rt0 with mutexProfileFraction := 5 }

/-- A fresh quiet CPU session state. -/
def stateQuiet : PState :=
  initS (CPUProfile cfgQuiet) rt0

/-- A mutex session already in the running state, as a winning Start leaves it. -/
def runningMutex : PState :=
  { prof :=
      { MutexProfile cfg0 with
          started := 1
          internalCloser := some profileMode.mutexMode
          filePath := "./mutex.pprof"
          file := some 3 }
    rt := rt0
    events := [] }

/-- The state a winning Start of a default memory session reaches under `okEnv`. -/
def startedMem : PState :=
  match Start okEnv (initS (mkProfile .memMode cfg0) rt0) with
  | .ok s1 => s1
  | .panicked _ => initS (mkProfile .memMode cfg0) rt0

/-- The state a winning Start of a default mutex session reaches under `okEnv`
from a runtime whose mutex fraction is 5. -/
def startedMutex5 : PState :=
  match Start okEnv (initS (MutexProfile cfg0) rt5) with
  | .ok s1 => s1
  | .panicked _ => initS (MutexProfile cfg0) rt5

/-- The state a winning Start of a CPU session with a custom output directory
reaches under `okEnv`. -/
def startedCustom : PState :=
  match Start okEnv (initS (CPUProfile cfgCustom) rt0) with
  | .ok s1 => s1
  | .panicked _ => initS (CPUProfile cfgCustom) rt0

/-- The state a winning Start of a default goroutine session reaches when
every file creation fails. -/
def startedGorFail : PState :=
  match Start badCreateEnv (initS (GoroutineProfile cfg0) rt0) with
  | .ok s1 => s1
  | .panicked _ => initS (GoroutineProfile cfg0) rt0

/-- The state a winning Start of a trace session with a closer hook reaches
under `okEnv`. -/
def startedTraceHook : PState :=
  match Start okEnv (initS (TraceProfile cfgHook) rt0) with
  | .ok s1 => s1
  | .panicked _ => initS (TraceProfile cfgHook) rt0

/-- The state a winning Start of a default thread-creation session reaches
under `okEnv`. -/
def startedThread : PState :=
  match Start okEnv (initS (mkProfile .threadMode cfg0) rt0) with
  | .ok s1 => s1
  | .panicked _ => initS (mkProfile .threadMode cfg0) rt0


/-! ## Basic lemmas -/

theorem emit_prof (s : PState) (evs : List Event) : (emit s evs).prof = s.prof := rfl

theorem emit_rt (s : PState) (evs : List Event) : (emit s evs).rt = s.rt := rfl

theorem emit_events (s : PState) (evs : List Event) :
    (emit s evs).events = s.events ++ evs := rfl

theorem logfS_prof (s : PState) (level : logLevel) (msg : String) :
    (logfS s level msg).prof = s.prof := rfl

theorem logfS_rt (s : PState) (level : logLevel) (msg : String) :
    (logfS s level msg).rt = s.rt := rfl

theorem logfS_events (s : PState) (level : logLevel) (msg : String) :
    (logfS s level msg).events = s.events ++ s.prof.logfEvents level msg := rfl

theorem logS_prof (s : PState) (level : logLevel) (msg : String) :
    (logS s level msg).prof = s.prof := rfl

theorem logS_rt (s : PState) (level : logLevel) (msg : String) :
    (logS s level msg).rt = s.rt := rfl

theorem logS_events (s : PState) (level : logLevel) (msg : String) :
    (logS s level msg).events = s.events ++ s.prof.logEvents level msg := rfl

theorem logfEvents_filter_isCreate (p : Profile) (level : logLevel) (msg : String) :
    (p.logfEvents level msg).filter Event.isCreate = [] := by
  unfold Profile.logfEvents
  split <;> [rfl; split <;> rfl]

theorem logfEvents_filter_isDirPrep (p : Profile) (level : logLevel) (msg : String) :
    (p.logfEvents level msg).filter Event.isDirPrep = [] := by
  unfold Profile.logfEvents
  split <;> [rfl; split <;> rfl]

theorem logEvents_filter_isCreate (p : Profile) (level : logLevel) (msg : String) :
    (p.logEvents level msg).filter Event.isCreate = [] := by
  unfold Profile.logEvents
  split <;> [rfl; split <;> rfl]

theorem logEvents_filter_isDirPrep (p : Profile) (level : logLevel) (msg : String) :
    (p.logEvents level msg).filter Event.isDirPrep = [] := by
  unfold Profile.logEvents
  split <;> [rfl; split <;> rfl]

theorem logfEvents_no_closerHookRun (p : Profile) (level : logLevel) (msg : String) :
    Event.closerHookRun ∉ p.logfEvents level msg := by
  unfold Profile.logfEvents
  split
  · simp
  · split <;> simp

theorem logEvents_no_closerHookRun (p : Profile) (level : logLevel) (msg : String) :
    Event.closerHookRun ∉ p.logEvents level msg := by
  unfold Profile.logEvents
  split
  · simp
  · split <;> simp

theorem logfEvents_error_mem (p : Profile) (msg : String) (h : p.quiet = false) :
    ∃ ev ∈ p.logfEvents .error msg, ev.isErrorLog = true := by
  cases hl : p.hasLogger <;> simp [Profile.logfEvents, h, hl, Event.isErrorLog]

theorem logfEvents_info_mem (p : Profile) (msg : String) (h : p.quiet = false) :
    ∃ ev ∈ p.logfEvents .info msg, ev.infoMsg = some msg := by
  cases hl : p.hasLogger <;> simp [Profile.logfEvents, h, hl, Event.infoMsg]


/-! ## Characterisation of each phase -/

theorem createFile_ok (env : Env) (s s' : PState) (h : createFile env s = .ok s') :
    s'.prof = { s.prof with filePath := filepathJoin s.prof.path s.prof.fileName,
                            file := s'.prof.file } ∧
    s'.rt = s.rt ∧
    (∀ fd, env.createRes (filepathJoin s.prof.path s.prof.fileName) = Except.ok fd →
      s'.prof.file = some fd) ∧
    (∀ e, env.createRes (filepathJoin s.prof.path s.prof.fileName) = Except.error e →
      s'.prof.file = none) ∧
    ∃ t, s'.events = s.events ++ Event.osCreate (filepathJoin s.prof.path s.prof.fileName) :: t ∧
      t.filter Event.isCreate = [] ∧ t.filter Event.isDirPrep = [] ∧
      Event.closerHookRun ∉ t ∧
      (∀ e, env.createRes (filepathJoin s.prof.path s.prof.fileName) = Except.error e →
        s.prof.quiet = false → ∃ ev ∈ t, ev.isErrorLog = true) := by
  cases hcr : env.createRes (filepathJoin s.prof.path s.prof.fileName) with
  | ok fd =>
      simp only [createFile, emit, hcr] at h
      cases h
      refine ⟨rfl, rfl, ?_, ?_, [], by simp, rfl, rfl, by simp, ?_⟩
      · intro fd2 h2
        cases h2
        rfl
      · intro e h2
        exact Except.noConfusion h2
      · intro e h2
        exact Except.noConfusion h2
  | error e =>
      simp only [createFile, emit, hcr, logfS_prof] at h
      cases hpf : s.prof.panicIfFail with
      | true => simp [hpf] at h
      | false =>
        simp only [hpf, Bool.false_eq_true, if_false, Outcome.ok.injEq] at h
        subst h
        refine ⟨?_, ?_, ?_, ?_,
          s.prof.logfEvents .error
            (s.prof.mode.str ++ " profiling file " ++ filepathJoin s.prof.path s.prof.fileName
              ++ " creation failed: " ++ e), ?_, ?_, ?_, ?_, ?_⟩
        · simp [logfS_prof, hpf]
        · rw [logfS_rt]
        · intro fd2 h2
          exact Except.noConfusion h2
        · intro e2 _
          rw [logfS_prof]
        · rw [logfS_events]
          simp [Profile.logfEvents]
        · exact logfEvents_filter_isCreate _ _ _
        · exact logfEvents_filter_isDirPrep _ _ _
        · exact logfEvents_no_closerHookRun _ _ _
        · intro e2 _ hq
          exact logfEvents_error_mem _ _ hq


theorem filter_cons_false {q : Event → Bool} {a : Event} {l : List Event} (ha : q a = false) :
    (a :: l).filter q = l.filter q := by
  simp [List.filter_cons, ha]

theorem prepareTempPath_of_ok (env : Env) (s : PState) (d : String)
    (ht : env.tempDirRes = .ok d) :
    prepareTempPath env s =
      (none, { prof := { s.prof with path := d }, rt := s.rt,
               events := s.events ++ [Event.tempDirMk] }) := by
  simp [prepareTempPath, emit, ht]

theorem prepareTempPath_of_err (env : Env) (s : PState) (e : String)
    (ht : env.tempDirRes = .error e) :
    prepareTempPath env s =
      (some e, { prof := { s.prof with path := "" }, rt := s.rt,
                 events := s.events ++ [Event.tempDirMk] }) := by
  simp [prepareTempPath, emit, ht]

theorem prepareCustomPath_of_blank (env : Env) (s : PState) (hp : s.prof.path = "") :
    prepareCustomPath env s = (none, { s with prof := { s.prof with path := DefaultPath } }) := by
  simp [prepareCustomPath, hp]

theorem prepareCustomPath_of_default (env : Env) (s : PState) (hd : s.prof.path = DefaultPath) :
    prepareCustomPath env s = (none, s) := by
  have hqq : (DefaultPath : String) = "" ↔ False := by
    simp only [iff_false]
    decide
  simp [prepareCustomPath, hd, hqq]

theorem prepareCustomPath_of_custom (env : Env) (s : PState) (hp : s.prof.path ≠ "")
    (hd : s.prof.path ≠ DefaultPath) :
    prepareCustomPath env s = (env.mkdirRes s.prof.path, emit s [.mkdirAll s.prof.path]) := by
  cases hm : env.mkdirRes s.prof.path <;> simp [prepareCustomPath, emit, hp, hd, hm]

theorem preparePath_of_none (env : Env) (s s1 : PState)
    (h : (if s.prof.useTempPath then prepareTempPath env s else prepareCustomPath env s)
      = (none, s1)) :
    preparePath env s = .ok s1 := by
  unfold preparePath
  rw [h]

theorem preparePath_of_some (env : Env) (s s1 : PState) (e : String)
    (h : (if s.prof.useTempPath then prepareTempPath env s else prepareCustomPath env s)
      = (some e, s1)) :
    preparePath env s =
      if s1.prof.panicIfFail then .panicked e
      else .ok (logfS s1 .error
        (s1.prof.mode.str ++ " profiling start aborted, could not create output directory: "
          ++ e)) := by
  unfold preparePath
  rw [h]
  rfl

theorem preparePath_ok (env : Env) (s s' : PState) (h : preparePath env s = .ok s') :
    s'.prof = { s.prof with path := resolvedPath env s.prof } ∧
    s'.rt = s.rt ∧
    ∃ t, s'.events = s.events ++ t ∧
      t.filter Event.isCreate = [] ∧ (t.filter Event.isDirPrep).length ≤ 1 ∧
      Event.closerHookRun ∉ t ∧
      (∀ e, prepFailure env s.prof = some e → s.prof.quiet = false →
        ∃ ev ∈ t, ev.isErrorLog = true) ∧
      (s.prof.useTempPath = false → effectivePath s.prof ≠ DefaultPath →
        env.mkdirRes (effectivePath s.prof) = none →
        t = [Event.mkdirAll (effectivePath s.prof)]) ∧
      (s.prof.useTempPath = true → Event.tempDirMk ∈ t) := by
  by_cases hu : s.prof.useTempPath = true
  · cases ht : env.tempDirRes with
    | ok d =>
      rw [preparePath_of_none env s _ (by rw [if_pos hu, prepareTempPath_of_ok env s d ht])] at h
      cases h
      refine ⟨by rw [show resolvedPath env s.prof = d from by simp [resolvedPath, hu, ht]],
        rfl, [Event.tempDirMk], rfl, rfl, by decide, by decide, ?_, ?_, by simp⟩
      · intro e he
        rw [prepFailure, if_pos hu, ht] at he
        exact Option.noConfusion he
      · intro hf
        rw [hu] at hf
        exact Bool.noConfusion hf
    | error e0 =>
      rw [preparePath_of_some env s _ e0
        (by rw [if_pos hu, prepareTempPath_of_err env s e0 ht])] at h
      split at h
      · exact Outcome.noConfusion h
      · cases h
        refine ⟨by rw [logfS_prof,
            show resolvedPath env s.prof = "" from by simp [resolvedPath, hu, ht]],
          by rw [logfS_rt],
          Event.tempDirMk :: Profile.logfEvents { s.prof with path := "" } .error
            (({ s.prof with path := "" } : Profile).mode.str ++
              " profiling start aborted, could not create output directory: " ++ e0),
          ?_, ?_, ?_, ?_, ?_, ?_, by simp⟩
        · rw [logfS_events]
          simp
        · rw [filter_cons_false rfl]
          exact logfEvents_filter_isCreate _ _ _
        · rw [List.filter_cons]
          simp only [show Event.tempDirMk.isDirPrep = true from rfl, if_true,
            logfEvents_filter_isDirPrep]
          simp
        · intro hc
          rcases List.mem_cons.mp hc with hc | hc
          · exact Event.noConfusion hc
          · exact logfEvents_no_closerHookRun _ _ _ hc
        · intro e he hq
          obtain ⟨ev, hmem, hev⟩ := logfEvents_error_mem ({ s.prof with path := "" } : Profile)
            (({ s.prof with path := "" } : Profile).mode.str ++
              " profiling start aborted, could not create output directory: " ++ e0) hq
          exact ⟨ev, List.mem_cons_of_mem _ hmem, hev⟩
        · intro hf
          rw [hu] at hf
          exact Bool.noConfusion hf
  · replace hu : s.prof.useTempPath = false := by simpa using hu
    have hu2 : ¬(s.prof.useTempPath = true) := by simp [hu]
    by_cases hp : s.prof.path = ""
    · rw [preparePath_of_none env s _
        (by rw [if_neg hu2, prepareCustomPath_of_blank env s hp])] at h
      cases h
      refine ⟨by rw [show resolvedPath env s.prof = DefaultPath from
          by simp [resolvedPath, hu, effectivePath, hp]],
        rfl, [], by simp, rfl, by decide, by decide, ?_, ?_, ?_⟩
      · intro e he
        rw [prepFailure, if_neg hu2, if_neg (by simp [effectivePath, hp])] at he
        exact Option.noConfusion he
      · intro _ hne
        exact absurd (by simp [effectivePath, hp]) hne
      · intro hf
        rw [hu] at hf
        exact Bool.noConfusion hf
    · by_cases hd : s.prof.path = DefaultPath
      · rw [preparePath_of_none env s _
          (by rw [if_neg hu2, prepareCustomPath_of_default env s hd])] at h
        cases h
        refine ⟨by rw [show resolvedPath env s.prof = s.prof.path from
            by simp [resolvedPath, hu, effectivePath, hp]],
          rfl, [], by simp, rfl, by decide, by decide, ?_, ?_, ?_⟩
        · intro e he
          rw [prepFailure, if_neg hu2, if_neg (by simp [effectivePath, hp, hd])] at he
          exact Option.noConfusion he
        · intro _ hne
          exact absurd (by simp [effectivePath, hp, hd]) hne
        · intro hf
          rw [hu] at hf
          exact Bool.noConfusion hf
      · have heff : effectivePath s.prof = s.prof.path := by simp [effectivePath, hp]
        have hres : resolvedPath env s.prof = s.prof.path := by
          simp [resolvedPath, hu, effectivePath, hp]
        cases hm : env.mkdirRes s.prof.path with
        | none =>
          rw [preparePath_of_none env s _
            (by rw [if_neg hu2, prepareCustomPath_of_custom env s hp hd, hm])] at h
          cases h
          refine ⟨by rw [emit_prof, hres], by rw [emit_rt],
            [Event.mkdirAll s.prof.path], by rw [emit_events], rfl,
            by simp [List.filter_cons, Event.isDirPrep], by simp,
            ?_, ?_, ?_⟩
          · intro e he
            rw [prepFailure, if_neg hu2, if_pos (by rw [heff]; exact hd), heff, hm] at he
            exact Option.noConfusion he
          · intro _ _ _
            rw [heff]
          · intro hf
            rw [hu] at hf
            exact Bool.noConfusion hf
        | some e0 =>
          rw [preparePath_of_some env s _ e0
            (by rw [if_neg hu2, prepareCustomPath_of_custom env s hp hd, hm])] at h
          split at h
          · exact Outcome.noConfusion h
          · cases h
            refine ⟨by rw [logfS_prof, emit_prof, hres], by rw [logfS_rt, emit_rt],
              Event.mkdirAll s.prof.path :: Profile.logfEvents (emit s
                  [Event.mkdirAll s.prof.path]).prof .error
                ((emit s [Event.mkdirAll s.prof.path]).prof.mode.str ++
                  " profiling start aborted, could not create output directory: " ++ e0),
              ?_, ?_, ?_, ?_, ?_, ?_, ?_⟩
            · rw [logfS_events, emit_events]
              simp [emit]
            · rw [filter_cons_false rfl]
              exact logfEvents_filter_isCreate _ _ _
            · rw [List.filter_cons]
              simp only [show (Event.mkdirAll s.prof.path).isDirPrep = true from rfl, if_true,
                logfEvents_filter_isDirPrep]
              simp
            · intro hc
              rcases List.mem_cons.mp hc with hc | hc
              · exact Event.noConfusion hc
              · exact logfEvents_no_closerHookRun _ _ _ hc
            · intro e he hq
              obtain ⟨ev, hmem, hev⟩ := logfEvents_error_mem (emit s
                  [Event.mkdirAll s.prof.path]).prof
                ((emit s [Event.mkdirAll s.prof.path]).prof.mode.str ++
                  " profiling start aborted, could not create output directory: " ++ e0) hq
              exact ⟨ev, List.mem_cons_of_mem _ hmem, hev⟩
            · intro _ _ hmn
              rw [heff, hm] at hmn
              exact Option.noConfusion hmn
            · intro hf
              rw [hu] at hf
              exact Bool.noConfusion hf


theorem preparePath_fail_panic (env : Env) (s : PState) (e : String)
    (hf : prepFailure env s.prof = some e) (hpf : s.prof.panicIfFail = true) :
    preparePath env s = .panicked e := by
  by_cases hu : s.prof.useTempPath = true
  · cases ht : env.tempDirRes with
    | ok d =>
      rw [prepFailure, if_pos hu, ht] at hf
      exact Option.noConfusion hf
    | error e0 =>
      rw [prepFailure, if_pos hu, ht, Option.some.injEq] at hf
      subst hf
      rw [preparePath_of_some env s _ e0
        (by rw [if_pos hu, prepareTempPath_of_err env s e0 ht])]
      rw [if_pos]
      exact hpf
  · by_cases hp : s.prof.path = ""
    · rw [prepFailure, if_neg hu, if_neg (by simp [effectivePath, hp])] at hf
      exact Option.noConfusion hf
    · by_cases hd : s.prof.path = DefaultPath
      · rw [prepFailure, if_neg hu, if_neg (by simp [effectivePath, hp, hd])] at hf
        exact Option.noConfusion hf
      · have heff : effectivePath s.prof = s.prof.path := by simp [effectivePath, hp]
        rw [prepFailure, if_neg hu, if_pos (by rw [heff]; exact hd), heff] at hf
        rw [preparePath_of_some env s _ e
          (by rw [if_neg hu, prepareCustomPath_of_custom env s hp hd, hf])]
        rw [if_pos]
        exact hpf

theorem startGoroutineMode_ok (env : Env) (s s' : PState)
    (h : startGoroutineMode env s = .ok s') :
    StartCommonOk env s s' ∧ s'.prof.internalCloser = some .goroutineMode ∧
    s'.rt = s.rt ∧ s'.prof.previousMemProfileRate = s.prof.previousMemProfileRate := by
  unfold startGoroutineMode at h
  cases hcf : createFile env s with
  | panicked e =>
    rw [hcf] at h
    exact Outcome.noConfusion h
  | ok s1 =>
    rw [hcf] at h
    obtain ⟨hprof, hrt, hfdok, hfderr, t0, hev, hft1, hft2, hnc, herr⟩ :=
      createFile_ok env s s1 hcf
    cases h
    have hp2 : (logfS { s1 with prof := { s1.prof with internalCloser := some .goroutineMode } }
        .info ("Goroutine profiling enabled, file "
          ++ ({ s1 with prof := { s1.prof with internalCloser := some .goroutineMode } }
            : PState).prof.filePath)).prof
        = { s.prof with filePath := filepathJoin s.prof.path s.prof.fileName,
                        file := s1.prof.file, internalCloser := some .goroutineMode } := by
      rw [logfS_prof]
      rw [show ({ s1 with prof := { s1.prof with internalCloser := some .goroutineMode } }
        : PState).prof = { s1.prof with internalCloser := some .goroutineMode } from rfl]
      rw [hprof]
    refine ⟨⟨by rw [hp2], by rw [hp2], by rw [hp2], by rw [hp2], by rw [hp2], by rw [hp2],
      by rw [hp2], by rw [hp2], by rw [hp2], by rw [hp2], by rw [hp2], by rw [hp2],
      by rw [hp2], by rw [hp2], ?_, ?_, ?_⟩, by rw [hp2], by rw [logfS_rt]; exact hrt,
      by rw [hp2]⟩
    · intro fd hfd
      rw [hp2]
      exact hfdok fd hfd
    · intro e hfd
      rw [hp2]
      exact hfderr e hfd
    · have hq1 : s1.prof.quiet = s.prof.quiet := by rw [hprof]
      have hfp1 : s1.prof.filePath = filepathJoin s.prof.path s.prof.fileName := by rw [hprof]
      refine ⟨t0 ++ ({ s1.prof with internalCloser := some .goroutineMode } : Profile).logfEvents
        .info ("Goroutine profiling enabled, file " ++ s1.prof.filePath), ?_, ?_, ?_, ?_, ?_, ?_⟩
      · rw [logfS_events, hev]
        simp
      · simp [List.filter_append, hft1, logfEvents_filter_isCreate]
      · simp [List.filter_append, hft2, logfEvents_filter_isDirPrep]
      · simp only [List.mem_append]
        rintro (hc | hc)
        · exact hnc hc
        · exact logfEvents_no_closerHookRun _ _ _ hc
      · intro hq
        obtain ⟨ev, hm, hmsg⟩ := logfEvents_info_mem
          ({ s1.prof with internalCloser := some .goroutineMode } : Profile)
          ("Goroutine profiling enabled, file " ++ s1.prof.filePath) (hq1.trans hq)
        exact ⟨"Goroutine profiling enabled, file ", ev, List.mem_append.mpr (Or.inr hm),
          by rw [hmsg, hfp1]⟩
      · intro e hfd hq
        obtain ⟨ev, hm, hev2⟩ := herr e hfd hq
        exact ⟨ev, List.mem_append.mpr (Or.inl hm), hev2⟩

theorem startThreadCreationMode_ok (env : Env) (s s' : PState)
    (h : startThreadCreationMode env s = .ok s') :
    StartCommonOk env s s' ∧ s'.prof.internalCloser = some .threadMode ∧
    s'.rt = s.rt ∧ s'.prof.previousMemProfileRate = s.prof.previousMemProfileRate := by
  unfold startThreadCreationMode at h
  cases hcf : createFile env s with
  | panicked e =>
    rw [hcf] at h
    exact Outcome.noConfusion h
  | ok s1 =>
    rw [hcf] at h
    obtain ⟨hprof, hrt, hfdok, hfderr, t0, hev, hft1, hft2, hnc, herr⟩ :=
      createFile_ok env s s1 hcf
    cases h
    have hSta : s1.prof.started = s.prof.started := by rw [hprof]
    have hQ : s1.prof.quiet = s.prof.quiet := by rw [hprof]
    have hHL : s1.prof.hasLogger = s.prof.hasLogger := by rw [hprof]
    have hCH : s1.prof.closerHook = s.prof.closerHook := by rw [hprof]
    have hPF : s1.prof.panicIfFail = s.prof.panicIfFail := by rw [hprof]
    have hMode : s1.prof.mode = s.prof.mode := by rw [hprof]
    have hPath : s1.prof.path = s.prof.path := by rw [hprof]
    have hFN : s1.prof.fileName = s.prof.fileName := by rw [hprof]
    have hLN : s1.prof.lookupName = s.prof.lookupName := by rw [hprof]
    have hUT : s1.prof.useTempPath = s.prof.useTempPath := by rw [hprof]
    have hEIH : s1.prof.enableInterruptHook = s.prof.enableInterruptHook := by rw [hprof]
    have hMR : s1.prof.memProfileRate = s.prof.memProfileRate := by rw [hprof]
    have hMT : s1.prof.memProfileType = s.prof.memProfileType := by rw [hprof]
    have hFP : s1.prof.filePath = filepathJoin s.prof.path s.prof.fileName := by rw [hprof]
    have hPrev : s1.prof.previousMemProfileRate = s.prof.previousMemProfileRate := by
      rw [hprof]
    refine ⟨⟨hSta, hQ, hHL, hCH, hPF, hMode, hPath, hFN, hLN, hUT, hEIH, hMR, hMT, hFP,
      hfdok, hfderr, ?_⟩, rfl, hrt, hPrev⟩
    refine ⟨t0 ++ Profile.logfEvents { s1.prof with internalCloser := some .threadMode } .info ("Thread profiling enabled, file " ++ s1.prof.filePath), ?_, ?_, ?_, ?_, ?_, ?_⟩
    · show s1.events ++ Profile.logfEvents { s1.prof with internalCloser := some .threadMode } .info ("Thread profiling enabled, file " ++ s1.prof.filePath)
        = s.events ++ Event.osCreate (filepathJoin s.prof.path s.prof.fileName) :: _
      rw [hev]
      simp
    · simp [List.filter_append, hft1, logfEvents_filter_isCreate]
    · simp [List.filter_append, hft2, logfEvents_filter_isDirPrep]
    · simp only [List.mem_append]
      intro hc
      rcases hc with hc | hc
      · exact hnc hc
      · exact logfEvents_no_closerHookRun _ _ _ hc
    · intro hq
      obtain ⟨ev, hm, hmsg⟩ := logfEvents_info_mem ({ s1.prof with internalCloser := some .threadMode } : Profile)
        ("Thread profiling enabled, file " ++ s1.prof.filePath) (hQ.trans hq)
      refine ⟨"Thread profiling enabled, file ", ev, List.mem_append.mpr (Or.inr hm), ?_⟩
      rw [← hFP]
      exact hmsg
    · intro e2 hfd hq
      obtain ⟨ev, hm, hev2⟩ := herr e2 hfd hq
      exact ⟨ev, List.mem_append.mpr (Or.inl hm), hev2⟩

theorem startMutexMode_ok (env : Env) (s s' : PState)
    (h : startMutexMode env s = .ok s') :
    StartCommonOk env s s' ∧ s'.prof.internalCloser = some .mutexMode ∧
    s'.rt = { s.rt with mutexProfileFraction := 1 } ∧
    s'.prof.previousMemProfileRate = s.prof.previousMemProfileRate := by
  unfold startMutexMode at h
  cases hcf : createFile env s with
  | panicked e =>
    rw [hcf] at h
    exact Outcome.noConfusion h
  | ok s1 =>
    rw [hcf] at h
    obtain ⟨hprof, hrt, hfdok, hfderr, t0, hev, hft1, hft2, hnc, herr⟩ :=
      createFile_ok env s s1 hcf
    cases h
    have hSta : s1.prof.started = s.prof.started := by rw [hprof]
    have hQ : s1.prof.quiet = s.prof.quiet := by rw [hprof]
    have hHL : s1.prof.hasLogger = s.prof.hasLogger := by rw [hprof]
    have hCH : s1.prof.closerHook = s.prof.closerHook := by rw [hprof]
    have hPF : s1.prof.panicIfFail = s.prof.panicIfFail := by rw [hprof]
    have hMode : s1.prof.mode = s.prof.mode := by rw [hprof]
    have hPath : s1.prof.path = s.prof.path := by rw [hprof]
    have hFN : s1.prof.fileName = s.prof.fileName := by rw [hprof]
    have hLN : s1.prof.lookupName = s.prof.lookupName := by rw [hprof]
    have hUT : s1.prof.useTempPath = s.prof.useTempPath := by rw [hprof]
    have hEIH : s1.prof.enableInterruptHook = s.prof.enableInterruptHook := by rw [hprof]
    have hMR : s1.prof.memProfileRate = s.prof.memProfileRate := by rw [hprof]
    have hMT : s1.prof.memProfileType = s.prof.memProfileType := by rw [hprof]
    have hFP : s1.prof.filePath = filepathJoin s.prof.path s.prof.fileName := by rw [hprof]
    have hPrev : s1.prof.previousMemProfileRate = s.prof.previousMemProfileRate := by
      rw [hprof]
    have hRT : ({ s1.rt with mutexProfileFraction := 1 } : RuntimeState)
        = { s.rt with mutexProfileFraction := 1 } := by rw [hrt]
    refine ⟨⟨hSta, hQ, hHL, hCH, hPF, hMode, hPath, hFN, hLN, hUT, hEIH, hMR, hMT, hFP,
      hfdok, hfderr, ?_⟩, rfl, hRT, hPrev⟩
    refine ⟨t0 ++ Profile.logfEvents { s1.prof with internalCloser := some .mutexMode } .info ("Mutex profiling enabled, file " ++ s1.prof.filePath), ?_, ?_, ?_, ?_, ?_, ?_⟩
    · show s1.events ++ Profile.logfEvents { s1.prof with internalCloser := some .mutexMode } .info ("Mutex profiling enabled, file " ++ s1.prof.filePath)
        = s.events ++ Event.osCreate (filepathJoin s.prof.path s.prof.fileName) :: _
      rw [hev]
      simp
    · simp [List.filter_append, hft1, logfEvents_filter_isCreate]
    · simp [List.filter_append, hft2, logfEvents_filter_isDirPrep]
    · simp only [List.mem_append]
      intro hc
      rcases hc with hc | hc
      · exact hnc hc
      · exact logfEvents_no_closerHookRun _ _ _ hc
    · intro hq
      obtain ⟨ev, hm, hmsg⟩ := logfEvents_info_mem ({ s1.prof with internalCloser := some .mutexMode } : Profile)
        ("Mutex profiling enabled, file " ++ s1.prof.filePath) (hQ.trans hq)
      refine ⟨"Mutex profiling enabled, file ", ev, List.mem_append.mpr (Or.inr hm), ?_⟩
      rw [← hFP]
      exact hmsg
    · intro e2 hfd hq
      obtain ⟨ev, hm, hev2⟩ := herr e2 hfd hq
      exact ⟨ev, List.mem_append.mpr (Or.inl hm), hev2⟩

theorem startBlockMode_ok (env : Env) (s s' : PState)
    (h : startBlockMode env s = .ok s') :
    StartCommonOk env s s' ∧ s'.prof.internalCloser = some .blockMode ∧
    s'.rt = { s.rt with blockProfileRate := 1 } ∧
    s'.prof.previousMemProfileRate = s.prof.previousMemProfileRate := by
  unfold startBlockMode at h
  cases hcf : createFile env s with
  | panicked e =>
    rw [hcf] at h
    exact Outcome.noConfusion h
  | ok s1 =>
    rw [hcf] at h
    obtain ⟨hprof, hrt, hfdok, hfderr, t0, hev, hft1, hft2, hnc, herr⟩ :=
      createFile_ok env s s1 hcf
    cases h
    have hSta : s1.prof.started = s.prof.started := by rw [hprof]
    have hQ : s1.prof.quiet = s.prof.quiet := by rw [hprof]
    have hHL : s1.prof.hasLogger = s.prof.hasLogger := by rw [hprof]
    have hCH : s1.prof.closerHook = s.prof.closerHook := by rw [hprof]
    have hPF : s1.prof.panicIfFail = s.prof.panicIfFail := by rw [hprof]
    have hMode : s1.prof.mode = s.prof.mode := by rw [hprof]
    have hPath : s1.prof.path = s.prof.path := by rw [hprof]
    have hFN : s1.prof.fileName = s.prof.fileName := by rw [hprof]
    have hLN : s1.prof.lookupName = s.prof.lookupName := by rw [hprof]
    have hUT : s1.prof.useTempPath = s.prof.useTempPath := by rw [hprof]
    have hEIH : s1.prof.enableInterruptHook = s.prof.enableInterruptHook := by rw [hprof]
    have hMR : s1.prof.memProfileRate = s.prof.memProfileRate := by rw [hprof]
    have hMT : s1.prof.memProfileType = s.prof.memProfileType := by rw [hprof]
    have hFP : s1.prof.filePath = filepathJoin s.prof.path s.prof.fileName := by rw [hprof]
    have hPrev : s1.prof.previousMemProfileRate = s.prof.previousMemProfileRate := by
      rw [hprof]
    have hRT : ({ s1.rt with blockProfileRate := 1 } : RuntimeState)
        = { s.rt with blockProfileRate := 1 } := by rw [hrt]
    refine ⟨⟨hSta, hQ, hHL, hCH, hPF, hMode, hPath, hFN, hLN, hUT, hEIH, hMR, hMT, hFP,
      hfdok, hfderr, ?_⟩, rfl, hRT, hPrev⟩
    refine ⟨t0 ++ Profile.logfEvents { s1.prof with internalCloser := some .blockMode } .info ("Block profiling enabled, file " ++ s1.prof.filePath), ?_, ?_, ?_, ?_, ?_, ?_⟩
    · show s1.events ++ Profile.logfEvents { s1.prof with internalCloser := some .blockMode } .info ("Block profiling enabled, file " ++ s1.prof.filePath)
        = s.events ++ Event.osCreate (filepathJoin s.prof.path s.prof.fileName) :: _
      rw [hev]
      simp
    · simp [List.filter_append, hft1, logfEvents_filter_isCreate]
    · simp [List.filter_append, hft2, logfEvents_filter_isDirPrep]
    · simp only [List.mem_append]
      intro hc
      rcases hc with hc | hc
      · exact hnc hc
      · exact logfEvents_no_closerHookRun _ _ _ hc
    · intro hq
      obtain ⟨ev, hm, hmsg⟩ := logfEvents_info_mem ({ s1.prof with internalCloser := some .blockMode } : Profile)
        ("Block profiling enabled, file " ++ s1.prof.filePath) (hQ.trans hq)
      refine ⟨"Block profiling enabled, file ", ev, List.mem_append.mpr (Or.inr hm), ?_⟩
      rw [← hFP]
      exact hmsg
    · intro e2 hfd hq
      obtain ⟨ev, hm, hev2⟩ := herr e2 hfd hq
      exact ⟨ev, List.mem_append.mpr (Or.inl hm), hev2⟩

theorem startMemMode_ok (env : Env) (s s' : PState)
    (h : startMemMode env s = .ok s') :
    StartCommonOk env s s' ∧ s'.prof.internalCloser = some .memMode ∧
    s'.rt = { s.rt with memProfileRate := s.prof.memProfileRate } ∧
    s'.prof.previousMemProfileRate = s.rt.memProfileRate := by
  unfold startMemMode at h
  cases hcf : createFile env s with
  | panicked e =>
    rw [hcf] at h
    exact Outcome.noConfusion h
  | ok s1 =>
    rw [hcf] at h
    obtain ⟨hprof, hrt, hfdok, hfderr, t0, hev, hft1, hft2, hnc, herr⟩ :=
      createFile_ok env s s1 hcf
    cases h
    have hSta : s1.prof.started = s.prof.started := by rw [hprof]
    have hQ : s1.prof.quiet = s.prof.quiet := by rw [hprof]
    have hHL : s1.prof.hasLogger = s.prof.hasLogger := by rw [hprof]
    have hCH : s1.prof.closerHook = s.prof.closerHook := by rw [hprof]
    have hPF : s1.prof.panicIfFail = s.prof.panicIfFail := by rw [hprof]
    have hMode : s1.prof.mode = s.prof.mode := by rw [hprof]
    have hPath : s1.prof.path = s.prof.path := by rw [hprof]
    have hFN : s1.prof.fileName = s.prof.fileName := by rw [hprof]
    have hLN : s1.prof.lookupName = s.prof.lookupName := by rw [hprof]
    have hUT : s1.prof.useTempPath = s.prof.useTempPath := by rw [hprof]
    have hEIH : s1.prof.enableInterruptHook = s.prof.enableInterruptHook := by rw [hprof]
    have hMR : s1.prof.memProfileRate = s.prof.memProfileRate := by rw [hprof]
    have hMT : s1.prof.memProfileType = s.prof.memProfileType := by rw [hprof]
    have hFP : s1.prof.filePath = filepathJoin s.prof.path s.prof.fileName := by rw [hprof]
    have hPrev : s1.prof.previousMemProfileRate = s.prof.previousMemProfileRate := by
      rw [hprof]
    have hRT : ({ s1.rt with memProfileRate := s1.prof.memProfileRate } : RuntimeState)
        = { s.rt with memProfileRate := s.prof.memProfileRate } := by rw [hrt, hMR]
    have hPrev2 : s1.rt.memProfileRate = s.rt.memProfileRate := by rw [hrt]
    refine ⟨⟨hSta, hQ, hHL, hCH, hPF, hMode, hPath, hFN, hLN, hUT, hEIH, hMR, hMT, hFP,
      hfdok, hfderr, ?_⟩, rfl, hRT, hPrev2⟩
    refine ⟨t0 ++ Profile.logfEvents { s1.prof with previousMemProfileRate := s1.rt.memProfileRate, internalCloser := some .memMode } .info ("Memory profiling (" ++ s1.prof.memProfileType ++ ") enabled at rate " ++ toString s1.prof.memProfileRate ++ ", file " ++ s1.prof.filePath), ?_, ?_, ?_, ?_, ?_, ?_⟩
    · show s1.events ++ Profile.logfEvents { s1.prof with previousMemProfileRate := s1.rt.memProfileRate, internalCloser := some .memMode } .info ("Memory profiling (" ++ s1.prof.memProfileType ++ ") enabled at rate " ++ toString s1.prof.memProfileRate ++ ", file " ++ s1.prof.filePath)
        = s.events ++ Event.osCreate (filepathJoin s.prof.path s.prof.fileName) :: _
      rw [hev]
      simp
    · simp [List.filter_append, hft1, logfEvents_filter_isCreate]
    · simp [List.filter_append, hft2, logfEvents_filter_isDirPrep]
    · simp only [List.mem_append]
      intro hc
      rcases hc with hc | hc
      · exact hnc hc
      · exact logfEvents_no_closerHookRun _ _ _ hc
    · intro hq
      obtain ⟨ev, hm, hmsg⟩ := logfEvents_info_mem ({ s1.prof with previousMemProfileRate := s1.rt.memProfileRate, internalCloser := some .memMode } : Profile)
        ("Memory profiling (" ++ s1.prof.memProfileType ++ ") enabled at rate " ++ toString s1.prof.memProfileRate ++ ", file " ++ s1.prof.filePath) (hQ.trans hq)
      refine ⟨"Memory profiling (" ++ s1.prof.memProfileType ++ ") enabled at rate " ++ toString s1.prof.memProfileRate ++ ", file ", ev, List.mem_append.mpr (Or.inr hm), ?_⟩
      rw [← hFP]
      exact hmsg
    · intro e2 hfd hq
      obtain ⟨ev, hm, hev2⟩ := herr e2 hfd hq
      exact ⟨ev, List.mem_append.mpr (Or.inl hm), hev2⟩

theorem startCpuMode_ok (env : Env) (s s' : PState)
    (h : startCpuMode env s = .ok s') :
    StartCommonOk env s s' ∧ s'.prof.internalCloser = some .cpuMode ∧
    s'.rt = s.rt ∧ s'.prof.previousMemProfileRate = s.prof.previousMemProfileRate := by
  unfold startCpuMode at h
  cases hcf : createFile env s with
  | panicked e =>
    rw [hcf] at h
    exact Outcome.noConfusion h
  | ok s1 =>
    rw [hcf] at h
    obtain ⟨hprof, hrt, hfdok, hfderr, t0, hev, hft1, hft2, hnc, herr⟩ :=
      createFile_ok env s s1 hcf
    have hSta : s1.prof.started = s.prof.started := by rw [hprof]
    have hQ : s1.prof.quiet = s.prof.quiet := by rw [hprof]
    have hHL : s1.prof.hasLogger = s.prof.hasLogger := by rw [hprof]
    have hCH : s1.prof.closerHook = s.prof.closerHook := by rw [hprof]
    have hPF : s1.prof.panicIfFail = s.prof.panicIfFail := by rw [hprof]
    have hMode : s1.prof.mode = s.prof.mode := by rw [hprof]
    have hPath : s1.prof.path = s.prof.path := by rw [hprof]
    have hFN : s1.prof.fileName = s.prof.fileName := by rw [hprof]
    have hLN : s1.prof.lookupName = s.prof.lookupName := by rw [hprof]
    have hUT : s1.prof.useTempPath = s.prof.useTempPath := by rw [hprof]
    have hEIH : s1.prof.enableInterruptHook = s.prof.enableInterruptHook := by rw [hprof]
    have hMR : s1.prof.memProfileRate = s.prof.memProfileRate := by rw [hprof]
    have hMT : s1.prof.memProfileType = s.prof.memProfileType := by rw [hprof]
    have hFP : s1.prof.filePath = filepathJoin s.prof.path s.prof.fileName := by rw [hprof]
    have hPrev : s1.prof.previousMemProfileRate = s.prof.previousMemProfileRate := by
      rw [hprof]
    cases hcs : env.cpuStartRes with
    | none =>
      rw [hcs] at h
      cases h
      refine ⟨⟨hSta, hQ, hHL, hCH, hPF, hMode, hPath, hFN, hLN, hUT, hEIH, hMR, hMT, hFP,
        hfdok, hfderr, ?_⟩, rfl, hrt, hPrev⟩
      refine ⟨t0 ++ Event.pprofStartCPU :: Profile.logfEvents { s1.prof with internalCloser := some .cpuMode } .info ("CPU profiling enabled, file " ++ s1.prof.filePath),
        ?_, ?_, ?_, ?_, ?_, ?_⟩
      · show (s1.events ++ [Event.pprofStartCPU]) ++ Profile.logfEvents { s1.prof with internalCloser := some .cpuMode } .info ("CPU profiling enabled, file " ++ s1.prof.filePath)
          = s.events ++ Event.osCreate (filepathJoin s.prof.path s.prof.fileName) :: _
        rw [hev]
        simp
      · simp [List.filter_append, List.filter_cons, hft1, logfEvents_filter_isCreate,
          Event.isCreate]
      · simp [List.filter_append, List.filter_cons, hft2, logfEvents_filter_isDirPrep,
          Event.isDirPrep]
      · simp only [List.mem_append, List.mem_cons]
        intro hc
        rcases hc with hc | hc | hc
        · exact hnc hc
        · exact Event.noConfusion hc
        · exact logfEvents_no_closerHookRun _ _ _ hc
      · intro hq
        obtain ⟨ev, hm, hmsg⟩ := logfEvents_info_mem ({ s1.prof with internalCloser := some .cpuMode } : Profile)
          ("CPU profiling enabled, file " ++ s1.prof.filePath) (hQ.trans hq)
        refine ⟨"CPU profiling enabled, file ", ev,
          List.mem_append.mpr (Or.inr (List.mem_cons_of_mem _ hm)), ?_⟩
        rw [← hFP]
        exact hmsg
      · intro e2 hfd hq
        obtain ⟨ev, hm, hev2⟩ := herr e2 hfd hq
        exact ⟨ev, List.mem_append.mpr (Or.inl hm), hev2⟩
    | some e0 =>
      rw [hcs] at h
      simp only [logfS_prof, emit_prof] at h
      cases hpf : s1.prof.panicIfFail with
      | true => simp [hpf] at h
      | false =>
        simp only [hpf, Bool.false_eq_true, if_false] at h
        cases h
        refine ⟨⟨hSta, hQ, hHL, hCH, hPF, hMode, hPath, hFN, hLN, hUT, hEIH, hMR, hMT, hFP,
          hfdok, hfderr, ?_⟩, rfl, hrt, hPrev⟩
        refine ⟨t0 ++ Event.pprofStartCPU ::
          (Profile.logfEvents s1.prof .error ("CPU profiling start failed: " ++ e0) ++
            Profile.logfEvents { s1.prof with internalCloser := some .cpuMode } .info ("CPU profiling enabled, file " ++ s1.prof.filePath)), ?_, ?_, ?_, ?_, ?_, ?_⟩
        · show ((s1.events ++ [Event.pprofStartCPU]) ++
              Profile.logfEvents s1.prof .error ("CPU profiling start failed: " ++ e0)) ++
              Profile.logfEvents { s1.prof with internalCloser := some .cpuMode } .info ("CPU profiling enabled, file " ++ s1.prof.filePath)
            = s.events ++ Event.osCreate (filepathJoin s.prof.path s.prof.fileName) :: _
          rw [hev]
          simp
        · simp [List.filter_append, List.filter_cons, hft1, logfEvents_filter_isCreate,
            Event.isCreate]
        · simp [List.filter_append, List.filter_cons, hft2, logfEvents_filter_isDirPrep,
            Event.isDirPrep]
        · simp only [List.mem_append, List.mem_cons]
          intro hc
          rcases hc with hc | hc | hc | hc
          · exact hnc hc
          · exact Event.noConfusion hc
          · exact logfEvents_no_closerHookRun _ _ _ hc
          · exact logfEvents_no_closerHookRun _ _ _ hc
        · intro hq
          obtain ⟨ev, hm, hmsg⟩ := logfEvents_info_mem ({ s1.prof with internalCloser := some .cpuMode } : Profile)
            ("CPU profiling enabled, file " ++ s1.prof.filePath) (hQ.trans hq)
          refine ⟨"CPU profiling enabled, file ", ev, List.mem_append.mpr (Or.inr (List.mem_cons_of_mem _
            (List.mem_append.mpr (Or.inr hm)))), ?_⟩
          rw [← hFP]
          exact hmsg
        · intro e2 hfd hq
          obtain ⟨ev, hm, hev2⟩ := herr e2 hfd hq
          exact ⟨ev, List.mem_append.mpr (Or.inl hm), hev2⟩

theorem startTraceMode_ok (env : Env) (s s' : PState)
    (h : startTraceMode env s = .ok s') :
    StartCommonOk env s s' ∧ s'.prof.internalCloser = some .traceMode ∧
    s'.rt = s.rt ∧ s'.prof.previousMemProfileRate = s.prof.previousMemProfileRate := by
  unfold startTraceMode at h
  cases hcf : createFile env s with
  | panicked e =>
    rw [hcf] at h
    exact Outcome.noConfusion h
  | ok s1 =>
    rw [hcf] at h
    obtain ⟨hprof, hrt, hfdok, hfderr, t0, hev, hft1, hft2, hnc, herr⟩ :=
      createFile_ok env s s1 hcf
    have hSta : s1.prof.started = s.prof.started := by rw [hprof]
    have hQ : s1.prof.quiet = s.prof.quiet := by rw [hprof]
    have hHL : s1.prof.hasLogger = s.prof.hasLogger := by rw [hprof]
    have hCH : s1.prof.closerHook = s.prof.closerHook := by rw [hprof]
    have hPF : s1.prof.panicIfFail = s.prof.panicIfFail := by rw [hprof]
    have hMode : s1.prof.mode = s.prof.mode := by rw [hprof]
    have hPath : s1.prof.path = s.prof.path := by rw [hprof]
    have hFN : s1.prof.fileName = s.prof.fileName := by rw [hprof]
    have hLN : s1.prof.lookupName = s.prof.lookupName := by rw [hprof]
    have hUT : s1.prof.useTempPath = s.prof.useTempPath := by rw [hprof]
    have hEIH : s1.prof.enableInterruptHook = s.prof.enableInterruptHook := by rw [hprof]
    have hMR : s1.prof.memProfileRate = s.prof.memProfileRate := by rw [hprof]
    have hMT : s1.prof.memProfileType = s.prof.memProfileType := by rw [hprof]
    have hFP : s1.prof.filePath = filepathJoin s.prof.path s.prof.fileName := by rw [hprof]
    have hPrev : s1.prof.previousMemProfileRate = s.prof.previousMemProfileRate := by
      rw [hprof]
    cases hcs : env.traceStartRes with
    | none =>
      rw [hcs] at h
      cases h
      refine ⟨⟨hSta, hQ, hHL, hCH, hPF, hMode, hPath, hFN, hLN, hUT, hEIH, hMR, hMT, hFP,
        hfdok, hfderr, ?_⟩, rfl, hrt, hPrev⟩
      refine ⟨t0 ++ Event.traceStart :: Profile.logfEvents { s1.prof with internalCloser := some .traceMode } .info ("Trace profiling enabled, file " ++ s1.prof.filePath),
        ?_, ?_, ?_, ?_, ?_, ?_⟩
      · show (s1.events ++ [Event.traceStart]) ++ Profile.logfEvents { s1.prof with internalCloser := some .traceMode } .info ("Trace profiling enabled, file " ++ s1.prof.filePath)
          = s.events ++ Event.osCreate (filepathJoin s.prof.path s.prof.fileName) :: _
        rw [hev]
        simp
      · simp [List.filter_append, List.filter_cons, hft1, logfEvents_filter_isCreate,
          Event.isCreate]
      · simp [List.filter_append, List.filter_cons, hft2, logfEvents_filter_isDirPrep,
          Event.isDirPrep]
      · simp only [List.mem_append, List.mem_cons]
        intro hc
        rcases hc with hc | hc | hc
        · exact hnc hc
        · exact Event.noConfusion hc
        · exact logfEvents_no_closerHookRun _ _ _ hc
      · intro hq
        obtain ⟨ev, hm, hmsg⟩ := logfEvents_info_mem ({ s1.prof with internalCloser := some .traceMode } : Profile)
          ("Trace profiling enabled, file " ++ s1.prof.filePath) (hQ.trans hq)
        refine ⟨"Trace profiling enabled, file ", ev,
          List.mem_append.mpr (Or.inr (List.mem_cons_of_mem _ hm)), ?_⟩
        rw [← hFP]
        exact hmsg
      · intro e2 hfd hq
        obtain ⟨ev, hm, hev2⟩ := herr e2 hfd hq
        exact ⟨ev, List.mem_append.mpr (Or.inl hm), hev2⟩
    | some e0 =>
      rw [hcs] at h
      simp only [logfS_prof, emit_prof] at h
      cases hpf : s1.prof.panicIfFail with
      | true => simp [hpf] at h
      | false =>
        simp only [hpf, Bool.false_eq_true, if_false] at h
        cases h
        refine ⟨⟨hSta, hQ, hHL, hCH, hPF, hMode, hPath, hFN, hLN, hUT, hEIH, hMR, hMT, hFP,
          hfdok, hfderr, ?_⟩, rfl, hrt, hPrev⟩
        refine ⟨t0 ++ Event.traceStart ::
          (Profile.logfEvents s1.prof .error ("Trace profiling start failed: " ++ e0) ++
            Profile.logfEvents { s1.prof with internalCloser := some .traceMode } .info ("Trace profiling enabled, file " ++ s1.prof.filePath)), ?_, ?_, ?_, ?_, ?_, ?_⟩
        · show ((s1.events ++ [Event.traceStart]) ++
              Profile.logfEvents s1.prof .error ("Trace profiling start failed: " ++ e0)) ++
              Profile.logfEvents { s1.prof with internalCloser := some .traceMode } .info ("Trace profiling enabled, file " ++ s1.prof.filePath)
            = s.events ++ Event.osCreate (filepathJoin s.prof.path s.prof.fileName) :: _
          rw [hev]
          simp
        · simp [List.filter_append, List.filter_cons, hft1, logfEvents_filter_isCreate,
            Event.isCreate]
        · simp [List.filter_append, List.filter_cons, hft2, logfEvents_filter_isDirPrep,
            Event.isDirPrep]
        · simp only [List.mem_append, List.mem_cons]
          intro hc
          rcases hc with hc | hc | hc | hc
          · exact hnc hc
          · exact Event.noConfusion hc
          · exact logfEvents_no_closerHookRun _ _ _ hc
          · exact logfEvents_no_closerHookRun _ _ _ hc
        · intro hq
          obtain ⟨ev, hm, hmsg⟩ := logfEvents_info_mem ({ s1.prof with internalCloser := some .traceMode } : Profile)
            ("Trace profiling enabled, file " ++ s1.prof.filePath) (hQ.trans hq)
          refine ⟨"Trace profiling enabled, file ", ev, List.mem_append.mpr (Or.inr (List.mem_cons_of_mem _
            (List.mem_append.mpr (Or.inr hm)))), ?_⟩
          rw [← hFP]
          exact hmsg
        · intro e2 hfd hq
          obtain ⟨ev, hm, hev2⟩ := herr e2 hfd hq
          exact ⟨ev, List.mem_append.mpr (Or.inl hm), hev2⟩


theorem startModeDispatch_ok (env : Env) (s s' : PState)
    (h : startModeDispatch env s = .ok s') :
    StartCommonOk env s s' ∧ s'.prof.internalCloser = some s.prof.mode ∧
    (s'.prof.previousMemProfileRate =
      if s.prof.mode = .memMode then s.rt.memProfileRate
      else s.prof.previousMemProfileRate) ∧
    (s'.rt = match s.prof.mode with
      | .memMode => { s.rt with memProfileRate := s.prof.memProfileRate }
      | .mutexMode => { s.rt with mutexProfileFraction := 1 }
      | .blockMode => { s.rt with blockProfileRate := 1 }
      | _ => s.rt) := by
  unfold startModeDispatch at h
  cases hm : s.prof.mode with
  | cpuMode =>
    rw [hm] at h
    obtain ⟨hc, hcl, hrt2, hprev⟩ := startCpuMode_ok env s s' h
    exact ⟨hc, hcl, by rw [if_neg (by decide)]; exact hprev, hrt2⟩
  | memMode =>
    rw [hm] at h
    obtain ⟨hc, hcl, hrt2, hprev⟩ := startMemMode_ok env s s' h
    exact ⟨hc, hcl, by rw [if_pos rfl]; exact hprev, hrt2⟩
  | mutexMode =>
    rw [hm] at h
    obtain ⟨hc, hcl, hrt2, hprev⟩ := startMutexMode_ok env s s' h
    exact ⟨hc, hcl, by rw [if_neg (by decide)]; exact hprev, hrt2⟩
  | blockMode =>
    rw [hm] at h
    obtain ⟨hc, hcl, hrt2, hprev⟩ := startBlockMode_ok env s s' h
    exact ⟨hc, hcl, by rw [if_neg (by decide)]; exact hprev, hrt2⟩
  | traceMode =>
    rw [hm] at h
    obtain ⟨hc, hcl, hrt2, hprev⟩ := startTraceMode_ok env s s' h
    exact ⟨hc, hcl, by rw [if_neg (by decide)]; exact hprev, hrt2⟩
  | threadMode =>
    rw [hm] at h
    obtain ⟨hc, hcl, hrt2, hprev⟩ := startThreadCreationMode_ok env s s' h
    exact ⟨hc, hcl, by rw [if_neg (by decide)]; exact hprev, hrt2⟩
  | goroutineMode =>
    rw [hm] at h
    obtain ⟨hc, hcl, hrt2, hprev⟩ := startGoroutineMode_ok env s s' h
    exact ⟨hc, hcl, by rw [if_neg (by decide)]; exact hprev, hrt2⟩

theorem Start_lose (env : Env) (s : PState) (h : s.prof.started ≠ 0) :
    Start env s = .ok s := by
  unfold Start
  rw [if_neg h]

theorem Stop_lose (env : Env) (s : PState) (h : s.prof.started ≠ 1) :
    Stop env s = s := by
  unfold Stop
  rw [if_neg h]

theorem startInterruptHook_spec (s : PState) :
    (startInterruptHook s).prof = s.prof ∧ (startInterruptHook s).rt = s.rt ∧
    ∃ t, (startInterruptHook s).events = s.events ++ t ∧
      t.filter Event.isCreate = [] ∧ t.filter Event.isDirPrep = [] ∧
      Event.closerHookRun ∉ t := by
  unfold startInterruptHook
  split
  · refine ⟨by rw [emit_prof, logfS_prof], by rw [emit_rt, logfS_rt],
      s.prof.logfEvents .info ("Start interrupt hook for " ++ s.prof.mode.str ++ " profiling")
        ++ [Event.spawnInterruptHook], ?_, ?_, ?_, ?_⟩
    · rw [emit_events, logfS_events]
      simp
    · simp [List.filter_append, logfEvents_filter_isCreate, Event.isCreate]
    · simp [List.filter_append, logfEvents_filter_isDirPrep, Event.isDirPrep]
    · intro hc
      rcases List.mem_append.mp hc with hc | hc
      · exact logfEvents_no_closerHookRun _ _ _ hc
      · rcases List.mem_cons.mp hc with hc | hc
        · exact Event.noConfusion hc
        · exact absurd hc (List.not_mem_nil _)
  · exact ⟨rfl, rfl, [], by simp, rfl, rfl, by decide⟩

theorem Start_win (env : Env) (s s' : PState) (h0 : s.prof.started = 0)
    (h : Start env s = .ok s') :
    s'.prof.started = 1 ∧
    s'.prof.quiet = s.prof.quiet ∧
    s'.prof.hasLogger = s.prof.hasLogger ∧
    s'.prof.closerHook = s.prof.closerHook ∧
    s'.prof.panicIfFail = s.prof.panicIfFail ∧
    s'.prof.mode = s.prof.mode ∧
    s'.prof.fileName = s.prof.fileName ∧
    s'.prof.lookupName = s.prof.lookupName ∧
    s'.prof.memProfileRate = s.prof.memProfileRate ∧
    s'.prof.memProfileType = s.prof.memProfileType ∧
    s'.prof.internalCloser = some s.prof.mode ∧
    s'.prof.path = resolvedPath env s.prof ∧
    s'.prof.filePath = filepathJoin (resolvedPath env s.prof) s.prof.fileName ∧
    (∀ fd, env.createRes (filepathJoin (resolvedPath env s.prof) s.prof.fileName)
      = Except.ok fd → s'.prof.file = some fd) ∧
    (∀ e, env.createRes (filepathJoin (resolvedPath env s.prof) s.prof.fileName)
      = Except.error e → s'.prof.file = none) ∧
    (s'.prof.previousMemProfileRate =
      if s.prof.mode = .memMode then s.rt.memProfileRate
      else s.prof.previousMemProfileRate) ∧
    (s'.rt = match s.prof.mode with
      | .memMode => { s.rt with memProfileRate := s.prof.memProfileRate }
      | .mutexMode => { s.rt with mutexProfileFraction := 1 }
      | .blockMode => { s.rt with blockProfileRate := 1 }
      | _ => s.rt) ∧
    ∃ t, s'.events = s.events ++ t ∧
      t.filter Event.isCreate
        = [Event.osCreate (filepathJoin (resolvedPath env s.prof) s.prof.fileName)] ∧
      (t.filter Event.isDirPrep).length ≤ 1 ∧
      Event.closerHookRun ∉ t ∧
      (s.prof.quiet = false → ∃ pre, ∃ ev ∈ t, ev.infoMsg
        = some (pre ++ filepathJoin (resolvedPath env s.prof) s.prof.fileName)) ∧
      (∀ e, env.createRes (filepathJoin (resolvedPath env s.prof) s.prof.fileName)
        = Except.error e → s.prof.quiet = false → ∃ ev ∈ t, ev.isErrorLog = true) ∧
      (∀ e, prepFailure env s.prof = some e → s.prof.quiet = false →
        ∃ ev ∈ t, ev.isErrorLog = true) ∧
      (s.prof.useTempPath = false → effectivePath s.prof ≠ DefaultPath →
        env.mkdirRes (effectivePath s.prof) = none →
        Event.mkdirAll (effectivePath s.prof) ∈ t) ∧
      (s.prof.useTempPath = true → Event.tempDirMk ∈ t) := by
  unfold Start at h
  rw [if_pos h0] at h
  cases hpp : preparePath env { s with prof := { s.prof with started := 1 } } with
  | panicked e =>
    rw [hpp] at h
    exact Outcome.noConfusion h
  | ok s1 =>
    rw [hpp] at h
    have h2 : (match startModeDispatch env s1 with
        | Outcome.panicked e => Outcome.panicked e
        | Outcome.ok s2 => Outcome.ok (startInterruptHook s2)) = Outcome.ok s' := h
    clear h
    cases hsd : startModeDispatch env s1 with
    | panicked e =>
      rw [hsd] at h2
      exact Outcome.noConfusion h2
    | ok s2 =>
      rw [hsd] at h2
      cases h2
      obtain ⟨hp1, hr1, t1, he1, hf1c, hlen1, hnc1, herr1, hmk1, htd1⟩ :=
        preparePath_ok env _ s1 hpp
      obtain ⟨⟨c1, c2, c3, c4, c5, c6, c7, c8, c9, c10, c11, c12, c13, c14, c15, c16,
        t2, he2, hf2c, hf2d, hnc2, hinfo2, herr2⟩, hcl2, hprev2, hrt2⟩ :=
        startModeDispatch_ok env s1 s2 hsd
      obtain ⟨hp3, hr3, t3, he3, hf3c, hf3d, hnc3⟩ := startInterruptHook_spec s2
      have h1sta : s1.prof.started = 1 := by rw [hp1]
      have h1q : s1.prof.quiet = s.prof.quiet := by rw [hp1]
      have h1hl : s1.prof.hasLogger = s.prof.hasLogger := by rw [hp1]
      have h1ch : s1.prof.closerHook = s.prof.closerHook := by rw [hp1]
      have h1pf : s1.prof.panicIfFail = s.prof.panicIfFail := by rw [hp1]
      have h1mode : s1.prof.mode = s.prof.mode := by rw [hp1]
      have h1fn : s1.prof.fileName = s.prof.fileName := by rw [hp1]
      have h1ln : s1.prof.lookupName = s.prof.lookupName := by rw [hp1]
      have h1mr : s1.prof.memProfileRate = s.prof.memProfileRate := by rw [hp1]
      have h1mt : s1.prof.memProfileType = s.prof.memProfileType := by rw [hp1]
      have h1prev : s1.prof.previousMemProfileRate = s.prof.previousMemProfileRate := by
        rw [hp1]
      have h1path : s1.prof.path = resolvedPath env s.prof := by
        rw [hp1]
        rfl
      have h1rtm : s1.rt.memProfileRate = s.rt.memProfileRate := by rw [hr1]
      have hfp1 : filepathJoin s1.prof.path s1.prof.fileName
          = filepathJoin (resolvedPath env s.prof) s.prof.fileName := by rw [h1path, h1fn]
      refine ⟨by rw [hp3, c1, h1sta], by rw [hp3, c2, h1q], by rw [hp3, c3, h1hl],
        by rw [hp3, c4, h1ch], by rw [hp3, c5, h1pf], by rw [hp3, c6, h1mode],
        by rw [hp3, c8, h1fn], by rw [hp3, c9, h1ln], by rw [hp3, c12, h1mr],
        by rw [hp3, c13, h1mt], by rw [hp3, hcl2, h1mode], by rw [hp3, c7, h1path],
        by rw [hp3, c14, hfp1], ?_, ?_, ?_, ?_, ?_⟩
      · intro fd hfd
        rw [hp3]
        exact c15 fd (by rw [hfp1]; exact hfd)
      · intro e hfd
        rw [hp3]
        exact c16 e (by rw [hfp1]; exact hfd)
      · rw [hp3, hprev2, h1mode, h1prev, h1rtm]
      · rw [hr3, hrt2, h1mode, h1mr, hr1]
      · refine ⟨t1 ++ Event.osCreate (filepathJoin (resolvedPath env s.prof) s.prof.fileName)
          :: (t2 ++ t3), ?_, ?_, ?_, ?_, ?_, ?_, ?_, ?_, ?_⟩
        · rw [he3, he2, he1, hfp1]
          simp
        · simp [List.filter_append, List.filter_cons, hf1c, hf2c, hf3c, Event.isCreate]
        · simpa [List.filter_append, List.filter_cons, hf2d, hf3d, Event.isDirPrep]
            using hlen1
        · simp only [List.mem_append, List.mem_cons]
          intro hc
          rcases hc with hc | hc | hc | hc
          · exact hnc1 hc
          · exact Event.noConfusion hc
          · exact hnc2 hc
          · exact hnc3 hc
        · intro hq
          obtain ⟨pre, ev, hm, hmsg⟩ := hinfo2 (h1q.trans hq)
          refine ⟨pre, ev, List.mem_append.mpr (Or.inr (List.mem_cons_of_mem _
            (List.mem_append.mpr (Or.inl hm)))), ?_⟩
          rw [← hfp1]
          exact hmsg
        · intro e hfd hq
          obtain ⟨ev, hm, hev2⟩ := herr2 e (by rw [hfp1]; exact hfd) (h1q.trans hq)
          exact ⟨ev, List.mem_append.mpr (Or.inr (List.mem_cons_of_mem _
            (List.mem_append.mpr (Or.inl hm)))), hev2⟩
        · intro e hfe hq
          obtain ⟨ev, hm, hev2⟩ := herr1 e hfe hq
          exact ⟨ev, List.mem_append.mpr (Or.inl hm), hev2⟩
        · intro hu hne hmn
          rw [hmk1 hu hne hmn]
          exact List.mem_append.mpr (Or.inl (List.mem_singleton.mpr rfl))
        · intro hu
          exact List.mem_append.mpr (Or.inl (htd1 hu))


theorem logfEvents_filter_isCH (p : Profile) (level : logLevel) (msg : String) :
    (p.logfEvents level msg).filter Event.isCH = [] := by
  unfold Profile.logfEvents
  split <;> [rfl; split <;> rfl]

theorem logEvents_filter_isCH (p : Profile) (level : logLevel) (msg : String) :
    (p.logEvents level msg).filter Event.isCH = [] := by
  unfold Profile.logEvents
  split <;> [rfl; split <;> rfl]

theorem not_mem_of_filter_nil (q : Event → Bool) (a : Event) (t : List Event)
    (ha : q a = true) (h : t.filter q = []) : a ∉ t := by
  intro hm
  have := List.mem_filter.mpr ⟨hm, ha⟩
  rw [h] at this
  exact absurd this (List.not_mem_nil a)

theorem logEvents_info_mem (p : Profile) (msg : String) (h : p.quiet = false) :
    ∃ ev ∈ p.logEvents .info msg, ev.infoMsg = some msg := by
  cases hl : p.hasLogger <;> simp [Profile.logEvents, h, hl, Event.infoMsg]

theorem runCloserHook_spec (s : PState) :
    (runCloserHook s).prof = s.prof ∧ (runCloserHook s).rt = s.rt ∧
    (runCloserHook s).events
      = s.events ++ (if s.prof.closerHook = true then [Event.closerHookRun] else []) := by
  unfold runCloserHook
  split
  next hch => exact ⟨rfl, rfl, rfl⟩
  next hch => exact ⟨rfl, rfl, by simp⟩


theorem stopAndFlush_spec (env : Env) (s : PState) :
    (stopAndFlush env s).prof = s.prof ∧ (stopAndFlush env s).rt = s.rt ∧
    ∃ t, (stopAndFlush env s).events = s.events ++ t ∧
      t.filter Event.isCreate = [] ∧ t.filter Event.isDirPrep = [] ∧
      Event.closerHookRun ∉ t ∧
      Event.pprofLookup s.prof.lookupName ∈ t ∧
      (env.lookupOk s.prof.lookupName = true →
        Event.pprofWriteTo s.prof.lookupName s.prof.file ∈ t) ∧
      (env.lookupOk s.prof.lookupName = false → s.prof.quiet = false →
        ∃ ev ∈ t, ev.isErrorLog = true) ∧
      Event.fileClose s.prof.file ∈ t ∧
      (s.prof.quiet = false →
        ∃ ev ∈ t, ev.infoMsg = some (s.prof.mode.str ++ " profiling disabled")) := by
  cases hlk : env.lookupOk s.prof.lookupName with
  | true =>
    cases hw : env.writeToRes with
    | none =>
      cases hcl : env.closeRes s.prof.file with
      | none =>
      refine ⟨by simp [stopAndFlush, logfS, emit, hlk, hw, hcl], by simp [stopAndFlush, logfS, emit, hlk, hw, hcl],
        s.prof.logfEvents .info ("Stop and flush " ++ s.prof.lookupName ++ " lookup for "
        ++ s.prof.mode.str ++ " profiling to file " ++ s.prof.filePath) ++ Event.pprofLookup s.prof.lookupName :: Event.pprofWriteTo s.prof.lookupName s.prof.file :: Event.fileClose s.prof.file :: s.prof.logfEvents .info (s.prof.mode.str ++ " profiling disabled"),
        by simp [stopAndFlush, logfS, emit, hlk, hw, hcl], ?_, ?_, ?_, by simp, ?_, ?_, by simp, ?_⟩
      · simp [List.filter_append, List.filter_cons, logfEvents_filter_isCreate, Event.isCreate]
      · simp [List.filter_append, List.filter_cons, logfEvents_filter_isDirPrep, Event.isDirPrep]
      · exact not_mem_of_filter_nil Event.isCH Event.closerHookRun _ rfl
          (by simp [List.filter_append, List.filter_cons, logfEvents_filter_isCH, Event.isCH])
      · intro _
        simp
      · intro hx _
        exact Bool.noConfusion hx
      · intro hq
        obtain ⟨ev, hm, hev⟩ := logfEvents_info_mem s.prof
          (s.prof.mode.str ++ " profiling disabled") hq
        exact ⟨ev, by simp [hm], hev⟩
      | some eC =>
      refine ⟨by simp [stopAndFlush, logfS, emit, hlk, hw, hcl], by simp [stopAndFlush, logfS, emit, hlk, hw, hcl],
        s.prof.logfEvents .info ("Stop and flush " ++ s.prof.lookupName ++ " lookup for "
        ++ s.prof.mode.str ++ " profiling to file " ++ s.prof.filePath) ++ Event.pprofLookup s.prof.lookupName :: Event.pprofWriteTo s.prof.lookupName s.prof.file :: Event.fileClose s.prof.file :: (s.prof.logfEvents .error (s.prof.mode.str ++ " profiling flushing data to file "
        ++ s.prof.filePath ++ " failed: " ++ eC) ++ s.prof.logfEvents .info (s.prof.mode.str ++ " profiling disabled")),
        by simp [stopAndFlush, logfS, emit, hlk, hw, hcl], ?_, ?_, ?_, by simp, ?_, ?_, by simp, ?_⟩
      · simp [List.filter_append, List.filter_cons, logfEvents_filter_isCreate, Event.isCreate]
      · simp [List.filter_append, List.filter_cons, logfEvents_filter_isDirPrep, Event.isDirPrep]
      · exact not_mem_of_filter_nil Event.isCH Event.closerHookRun _ rfl
          (by simp [List.filter_append, List.filter_cons, logfEvents_filter_isCH, Event.isCH])
      · intro _
        simp
      · intro hx _
        exact Bool.noConfusion hx
      · intro hq
        obtain ⟨ev, hm, hev⟩ := logfEvents_info_mem s.prof
          (s.prof.mode.str ++ " profiling disabled") hq
        exact ⟨ev, by simp [hm], hev⟩
    | some eW =>
      cases hcl : env.closeRes s.prof.file with
      | none =>
      refine ⟨by simp [stopAndFlush, logfS, emit, hlk, hw, hcl], by simp [stopAndFlush, logfS, emit, hlk, hw, hcl],
        s.prof.logfEvents .info ("Stop and flush " ++ s.prof.lookupName ++ " lookup for "
        ++ s.prof.mode.str ++ " profiling to file " ++ s.prof.filePath) ++ Event.pprofLookup s.prof.lookupName :: Event.pprofWriteTo s.prof.lookupName s.prof.file :: (s.prof.logfEvents .error (s.prof.mode.str ++ " profiling flushing data to file "
        ++ s.prof.filePath ++ " failed: " ++ eW) ++ Event.fileClose s.prof.file :: s.prof.logfEvents .info (s.prof.mode.str ++ " profiling disabled")),
        by simp [stopAndFlush, logfS, emit, hlk, hw, hcl], ?_, ?_, ?_, by simp, ?_, ?_, by simp, ?_⟩
      · simp [List.filter_append, List.filter_cons, logfEvents_filter_isCreate, Event.isCreate]
      · simp [List.filter_append, List.filter_cons, logfEvents_filter_isDirPrep, Event.isDirPrep]
      · exact not_mem_of_filter_nil Event.isCH Event.closerHookRun _ rfl
          (by simp [List.filter_append, List.filter_cons, logfEvents_filter_isCH, Event.isCH])
      · intro _
        simp
      · intro hx _
        exact Bool.noConfusion hx
      · intro hq
        obtain ⟨ev, hm, hev⟩ := logfEvents_info_mem s.prof
          (s.prof.mode.str ++ " profiling disabled") hq
        exact ⟨ev, by simp [hm], hev⟩
      | some eC =>
      refine ⟨by simp [stopAndFlush, logfS, emit, hlk, hw, hcl], by simp [stopAndFlush, logfS, emit, hlk, hw, hcl],
        s.prof.logfEvents .info ("Stop and flush " ++ s.prof.lookupName ++ " lookup for "
        ++ s.prof.mode.str ++ " profiling to file " ++ s.prof.filePath) ++ Event.pprofLookup s.prof.lookupName :: Event.pprofWriteTo s.prof.lookupName s.prof.file :: (s.prof.logfEvents .error (s.prof.mode.str ++ " profiling flushing data to file "
        ++ s.prof.filePath ++ " failed: " ++ eW) ++ Event.fileClose s.prof.file :: (s.prof.logfEvents .error (s.prof.mode.str ++ " profiling flushing data to file "
        ++ s.prof.filePath ++ " failed: " ++ eC) ++ s.prof.logfEvents .info (s.prof.mode.str ++ " profiling disabled"))),
        by simp [stopAndFlush, logfS, emit, hlk, hw, hcl], ?_, ?_, ?_, by simp, ?_, ?_, by simp, ?_⟩
      · simp [List.filter_append, List.filter_cons, logfEvents_filter_isCreate, Event.isCreate]
      · simp [List.filter_append, List.filter_cons, logfEvents_filter_isDirPrep, Event.isDirPrep]
      · exact not_mem_of_filter_nil Event.isCH Event.closerHookRun _ rfl
          (by simp [List.filter_append, List.filter_cons, logfEvents_filter_isCH, Event.isCH])
      · intro _
        simp
      · intro hx _
        exact Bool.noConfusion hx
      · intro hq
        obtain ⟨ev, hm, hev⟩ := logfEvents_info_mem s.prof
          (s.prof.mode.str ++ " profiling disabled") hq
        exact ⟨ev, by simp [hm], hev⟩
  | false =>
    cases hcl : env.closeRes s.prof.file with
    | none =>
      refine ⟨by simp [stopAndFlush, logfS, emit, hlk, hcl], by simp [stopAndFlush, logfS, emit, hlk, hcl],
        s.prof.logfEvents .info ("Stop and flush " ++ s.prof.lookupName ++ " lookup for "
        ++ s.prof.mode.str ++ " profiling to file " ++ s.prof.filePath) ++ Event.pprofLookup s.prof.lookupName :: (s.prof.logfEvents .error (s.prof.mode.str ++ " profiling flushing data to file "
        ++ s.prof.filePath ++ " failed: pprof lookup returned nil profile") ++ Event.fileClose s.prof.file :: s.prof.logfEvents .info (s.prof.mode.str ++ " profiling disabled")),
        by simp [stopAndFlush, logfS, emit, hlk, hcl], ?_, ?_, ?_, by simp, ?_, ?_, by simp, ?_⟩
      · simp [List.filter_append, List.filter_cons, logfEvents_filter_isCreate, Event.isCreate]
      · simp [List.filter_append, List.filter_cons, logfEvents_filter_isDirPrep, Event.isDirPrep]
      · exact not_mem_of_filter_nil Event.isCH Event.closerHookRun _ rfl
          (by simp [List.filter_append, List.filter_cons, logfEvents_filter_isCH, Event.isCH])
      · intro hx
        exact Bool.noConfusion hx
      · intro _ hq
        obtain ⟨ev, hm, hev⟩ := logfEvents_error_mem s.prof (s.prof.mode.str
          ++ " profiling flushing data to file " ++ s.prof.filePath
          ++ " failed: pprof lookup returned nil profile") hq
        exact ⟨ev, by simp [hm], hev⟩
      · intro hq
        obtain ⟨ev, hm, hev⟩ := logfEvents_info_mem s.prof
          (s.prof.mode.str ++ " profiling disabled") hq
        exact ⟨ev, by simp [hm], hev⟩
    | some eC =>
      refine ⟨by simp [stopAndFlush, logfS, emit, hlk, hcl], by simp [stopAndFlush, logfS, emit, hlk, hcl],
        s.prof.logfEvents .info ("Stop and flush " ++ s.prof.lookupName ++ " lookup for "
        ++ s.prof.mode.str ++ " profiling to file " ++ s.prof.filePath) ++ Event.pprofLookup s.prof.lookupName :: (s.prof.logfEvents .error (s.prof.mode.str ++ " profiling flushing data to file "
        ++ s.prof.filePath ++ " failed: pprof lookup returned nil profile") ++ Event.fileClose s.prof.file :: (s.prof.logfEvents .error (s.prof.mode.str ++ " profiling flushing data to file "
        ++ s.prof.filePath ++ " failed: " ++ eC) ++ s.prof.logfEvents .info (s.prof.mode.str ++ " profiling disabled"))),
        by simp [stopAndFlush, logfS, emit, hlk, hcl], ?_, ?_, ?_, by simp, ?_, ?_, by simp, ?_⟩
      · simp [List.filter_append, List.filter_cons, logfEvents_filter_isCreate, Event.isCreate]
      · simp [List.filter_append, List.filter_cons, logfEvents_filter_isDirPrep, Event.isDirPrep]
      · exact not_mem_of_filter_nil Event.isCH Event.closerHookRun _ rfl
          (by simp [List.filter_append, List.filter_cons, logfEvents_filter_isCH, Event.isCH])
      · intro hx
        exact Bool.noConfusion hx
      · intro _ hq
        obtain ⟨ev, hm, hev⟩ := logfEvents_error_mem s.prof (s.prof.mode.str
          ++ " profiling flushing data to file " ++ s.prof.filePath
          ++ " failed: pprof lookup returned nil profile") hq
        exact ⟨ev, by simp [hm], hev⟩
      · intro hq
        obtain ⟨ev, hm, hev⟩ := logfEvents_info_mem s.prof
          (s.prof.mode.str ++ " profiling disabled") hq
        exact ⟨ev, by simp [hm], hev⟩


theorem stopCpuMode_spec (env : Env) (s : PState) :
    (stopCpuMode env s).prof = s.prof ∧ (stopCpuMode env s).rt = s.rt ∧
    ∃ t, (stopCpuMode env s).events = s.events ++ t ∧
      t.filter Event.isCreate = [] ∧ Event.closerHookRun ∉ t ∧
      Event.pprofStopCPU ∈ t ∧ Event.fileClose s.prof.file ∈ t := by
  cases hcl : env.closeRes s.prof.file with
  | none =>
    refine ⟨by simp [stopCpuMode, logfS, logS, emit, hcl],
      by simp [stopCpuMode, logfS, logS, emit, hcl],
      s.prof.logfEvents .info ("Stop and flush CPU profiling to file " ++ s.prof.filePath)
        ++ Event.pprofStopCPU :: Event.fileClose s.prof.file ::
          s.prof.logEvents .info "CPU profiling disabled",
      by simp [stopCpuMode, logfS, logS, emit, hcl], ?_, ?_, by simp, by simp⟩
    · simp [List.filter_append, List.filter_cons, logfEvents_filter_isCreate,
        logEvents_filter_isCreate, Event.isCreate]
    · exact not_mem_of_filter_nil Event.isCH Event.closerHookRun _ rfl
        (by simp [List.filter_append, List.filter_cons, logfEvents_filter_isCH,
          logEvents_filter_isCH, Event.isCH])
  | some eC =>
    refine ⟨by simp [stopCpuMode, logfS, logS, emit, hcl],
      by simp [stopCpuMode, logfS, logS, emit, hcl],
      s.prof.logfEvents .info ("Stop and flush CPU profiling to file " ++ s.prof.filePath)
        ++ Event.pprofStopCPU :: Event.fileClose s.prof.file ::
          (s.prof.logfEvents .error
            ("CPU profiling flushing data to file " ++ s.prof.filePath ++ " failed: " ++ eC)
            ++ s.prof.logEvents .info "CPU profiling disabled"),
      by simp [stopCpuMode, logfS, logS, emit, hcl], ?_, ?_, by simp, by simp⟩
    · simp [List.filter_append, List.filter_cons, logfEvents_filter_isCreate,
        logEvents_filter_isCreate, Event.isCreate]
    · exact not_mem_of_filter_nil Event.isCH Event.closerHookRun _ rfl
        (by simp [List.filter_append, List.filter_cons, logfEvents_filter_isCH,
          logEvents_filter_isCH, Event.isCH])

theorem stopTraceMode_spec (env : Env) (s : PState) :
    (stopTraceMode env s).prof = s.prof ∧ (stopTraceMode env s).rt = s.rt ∧
    ∃ t, (stopTraceMode env s).events = s.events ++ t ∧
      t.filter Event.isCreate = [] ∧ Event.closerHookRun ∉ t ∧
      Event.traceStop ∈ t := by
  refine ⟨by simp [stopTraceMode, logfS, logS, emit],
    by simp [stopTraceMode, logfS, logS, emit],
    s.prof.logfEvents .info ("Stop and flush trace profiling to file " ++ s.prof.filePath)
      ++ Event.traceStop :: s.prof.logEvents .info "Trace profiling disabled",
    by simp [stopTraceMode, logfS, logS, emit], ?_, ?_, by simp⟩
  · simp [List.filter_append, List.filter_cons, logfEvents_filter_isCreate,
      logEvents_filter_isCreate, Event.isCreate]
  · exact not_mem_of_filter_nil Event.isCH Event.closerHookRun _ rfl
      (by simp [List.filter_append, List.filter_cons, logfEvents_filter_isCH,
        logEvents_filter_isCH, Event.isCH])

theorem runStop_spec (env : Env) (s : PState) (m : profileMode) :
    (runStop env s m).prof.started = s.prof.started ∧
    (runStop env s m).prof.closerHook = s.prof.closerHook ∧
    (runStop env s m).prof.quiet = s.prof.quiet ∧
    (m = .memMode → (runStop env s m).rt.memProfileRate = s.prof.previousMemProfileRate) ∧
    (m = .mutexMode → (runStop env s m).rt.mutexProfileFraction = 0) ∧
    (m = .blockMode → (runStop env s m).rt.blockProfileRate = 0) ∧
    ∃ t, (runStop env s m).events = s.events ++ t ∧
      Event.closerHookRun ∉ t ∧ t.filter Event.isCreate = [] ∧
      (isSnapshotKind m = true →
        Event.pprofLookup s.prof.lookupName ∈ t ∧
        (env.lookupOk s.prof.lookupName = true →
          Event.pprofWriteTo s.prof.lookupName s.prof.file ∈ t) ∧
        (env.lookupOk s.prof.lookupName = false → s.prof.quiet = false →
          ∃ ev ∈ t, ev.isErrorLog = true) ∧
        Event.fileClose s.prof.file ∈ t ∧
        (s.prof.quiet = false →
          ∃ ev ∈ t, ev.infoMsg = some (s.prof.mode.str ++ " profiling disabled"))) ∧
      (m = .cpuMode → Event.pprofStopCPU ∈ t ∧ Event.fileClose s.prof.file ∈ t) ∧
      (m = .traceMode → Event.traceStop ∈ t) := by
  cases m with
  | cpuMode =>
    simp only [runStop]
    obtain ⟨hp, hr, t, hev, hfc, hnc, hcpu, hclm⟩ := stopCpuMode_spec env s
    exact ⟨by rw [hp], by rw [hp], by rw [hp], fun hx => profileMode.noConfusion hx,
      fun hx => profileMode.noConfusion hx, fun hx => profileMode.noConfusion hx,
      t, hev, hnc, hfc, fun hx => Bool.noConfusion hx, fun _ => ⟨hcpu, hclm⟩,
      fun hx => profileMode.noConfusion hx⟩
  | traceMode =>
    simp only [runStop]
    obtain ⟨hp, hr, t, hev, hfc, hnc, htr⟩ := stopTraceMode_spec env s
    exact ⟨by rw [hp], by rw [hp], by rw [hp], fun hx => profileMode.noConfusion hx,
      fun hx => profileMode.noConfusion hx, fun hx => profileMode.noConfusion hx,
      t, hev, hnc, hfc, fun hx => Bool.noConfusion hx,
      fun hx => profileMode.noConfusion hx, fun _ => htr⟩
  | memMode =>
    simp only [runStop]
    obtain ⟨hp, hr, t, hev, hfc, hfd, hnc, hlkm, hwm, hnil, hclm, hdis⟩ := stopAndFlush_spec env s
    refine ⟨?_, ?_, ?_, ?_, fun hx => profileMode.noConfusion hx,
      fun hx => profileMode.noConfusion hx, t, ?_, hnc, hfc, ?_,
      fun hx => profileMode.noConfusion hx, fun hx => profileMode.noConfusion hx⟩
    · show ({ (stopAndFlush env s).prof with previousMemProfileRate := -1 } : Profile).started
        = s.prof.started
      rw [hp]
    · show ({ (stopAndFlush env s).prof with previousMemProfileRate := -1 } : Profile).closerHook
        = s.prof.closerHook
      rw [hp]
    · show ({ (stopAndFlush env s).prof with previousMemProfileRate := -1 } : Profile).quiet
        = s.prof.quiet
      rw [hp]
    · intro _
      show ({ (stopAndFlush env s).rt with
        memProfileRate := (stopAndFlush env s).prof.previousMemProfileRate } :
          RuntimeState).memProfileRate = s.prof.previousMemProfileRate
      rw [hp]
    · show (stopAndFlush env s).events = s.events ++ t
      exact hev
    · intro _
      exact ⟨hlkm, hwm, hnil, hclm, hdis⟩
  | mutexMode =>
    simp only [runStop]
    obtain ⟨hp, hr, t, hev, hfc, hfd, hnc, hlkm, hwm, hnil, hclm, hdis⟩ := stopAndFlush_spec env s
    refine ⟨?_, ?_, ?_, fun hx => profileMode.noConfusion hx, ?_,
      fun hx => profileMode.noConfusion hx, t, ?_, hnc, hfc, ?_,
      fun hx => profileMode.noConfusion hx, fun hx => profileMode.noConfusion hx⟩
    · show (stopAndFlush env s).prof.started = s.prof.started
      rw [hp]
    · show (stopAndFlush env s).prof.closerHook = s.prof.closerHook
      rw [hp]
    · show (stopAndFlush env s).prof.quiet = s.prof.quiet
      rw [hp]
    · intro _
      show ({ (stopAndFlush env s).rt with mutexProfileFraction := 0 } :
        RuntimeState).mutexProfileFraction = 0
      rfl
    · show (stopAndFlush env s).events = s.events ++ t
      exact hev
    · intro _
      exact ⟨hlkm, hwm, hnil, hclm, hdis⟩
  | blockMode =>
    simp only [runStop]
    obtain ⟨hp, hr, t, hev, hfc, hfd, hnc, hlkm, hwm, hnil, hclm, hdis⟩ := stopAndFlush_spec env s
    refine ⟨?_, ?_, ?_, fun hx => profileMode.noConfusion hx,
      fun hx => profileMode.noConfusion hx, ?_, t, ?_, hnc, hfc, ?_,
      fun hx => profileMode.noConfusion hx, fun hx => profileMode.noConfusion hx⟩
    · show (stopAndFlush env s).prof.started = s.prof.started
      rw [hp]
    · show (stopAndFlush env s).prof.closerHook = s.prof.closerHook
      rw [hp]
    · show (stopAndFlush env s).prof.quiet = s.prof.quiet
      rw [hp]
    · intro _
      show ({ (stopAndFlush env s).rt with blockProfileRate := 0 } :
        RuntimeState).blockProfileRate = 0
      rfl
    · show (stopAndFlush env s).events = s.events ++ t
      exact hev
    · intro _
      exact ⟨hlkm, hwm, hnil, hclm, hdis⟩
  | threadMode =>
    simp only [runStop, stopThreadCreationMode]
    obtain ⟨hp, hr, t, hev, hfc, hfd, hnc, hlkm, hwm, hnil, hclm, hdis⟩ := stopAndFlush_spec env s
    exact ⟨by rw [hp], by rw [hp], by rw [hp], fun hx => profileMode.noConfusion hx,
      fun hx => profileMode.noConfusion hx, fun hx => profileMode.noConfusion hx,
      t, hev, hnc, hfc, fun _ => ⟨hlkm, hwm, hnil, hclm, hdis⟩,
      fun hx => profileMode.noConfusion hx, fun hx => profileMode.noConfusion hx⟩
  | goroutineMode =>
    simp only [runStop, stopGoroutineMode]
    obtain ⟨hp, hr, t, hev, hfc, hfd, hnc, hlkm, hwm, hnil, hclm, hdis⟩ := stopAndFlush_spec env s
    exact ⟨by rw [hp], by rw [hp], by rw [hp], fun hx => profileMode.noConfusion hx,
      fun hx => profileMode.noConfusion hx, fun hx => profileMode.noConfusion hx,
      t, hev, hnc, hfc, fun _ => ⟨hlkm, hwm, hnil, hclm, hdis⟩,
      fun hx => profileMode.noConfusion hx, fun hx => profileMode.noConfusion hx⟩


theorem Stop_win (env : Env) (s : PState) (h1 : s.prof.started = 1) :
    (Stop env s).prof.started = 0 ∧
    (Stop env s).prof.closerHook = s.prof.closerHook ∧
    (Stop env s).prof.quiet = s.prof.quiet ∧
    (s.prof.internalCloser = some .memMode →
      (Stop env s).rt.memProfileRate = s.prof.previousMemProfileRate) ∧
    (s.prof.internalCloser = some .mutexMode → (Stop env s).rt.mutexProfileFraction = 0) ∧
    (s.prof.internalCloser = some .blockMode → (Stop env s).rt.blockProfileRate = 0) ∧
    ∃ t, (Stop env s).events
        = s.events ++ t ++ (if s.prof.closerHook = true then [Event.closerHookRun] else []) ∧
      Event.closerHookRun ∉ t ∧ t.filter Event.isCreate = [] ∧
      (s.prof.internalCloser = none → t = []) ∧
      (∀ m, s.prof.internalCloser = some m →
        (isSnapshotKind m = true →
          Event.pprofLookup s.prof.lookupName ∈ t ∧
          (env.lookupOk s.prof.lookupName = true →
            Event.pprofWriteTo s.prof.lookupName s.prof.file ∈ t) ∧
          (env.lookupOk s.prof.lookupName = false → s.prof.quiet = false →
            ∃ ev ∈ t, ev.isErrorLog = true) ∧
          Event.fileClose s.prof.file ∈ t ∧
          (s.prof.quiet = false →
            ∃ ev ∈ t, ev.infoMsg = some (s.prof.mode.str ++ " profiling disabled"))) ∧
        (m = .cpuMode → Event.pprofStopCPU ∈ t ∧ Event.fileClose s.prof.file ∈ t) ∧
        (m = .traceMode → Event.traceStop ∈ t)) := by
  unfold Stop
  rw [if_pos h1]
  cases hic : s.prof.internalCloser with
  | none =>
    dsimp only
    obtain ⟨hp, hr, he⟩ := runCloserHook_spec { s with prof := { s.prof with started := 0 } }
    refine ⟨by rw [hp], by rw [hp], by rw [hp],
      fun hx => Option.noConfusion hx, fun hx => Option.noConfusion hx,
      fun hx => Option.noConfusion hx, [], ?_, by simp, rfl, fun _ => rfl,
      fun m hx => Option.noConfusion hx⟩
    rw [he]
    simp
  | some m =>
    dsimp only
    obtain ⟨hcp, hcr, hce⟩ :=
      runCloserHook_spec (runStop env { s with prof := { s.prof with started := 0 } } m)
    obtain ⟨r1, r2, r3, r4, r5, r6, t, rte, rnc, rfc, rsnap, rcpu, rtr⟩ :=
      runStop_spec env { s with prof := { s.prof with started := 0 } } m
    refine ⟨by rw [hcp, r1], by rw [hcp, r2], by rw [hcp, r3], ?_, ?_, ?_,
      t, ?_, rnc, rfc, fun hx => Option.noConfusion hx, ?_⟩
    · intro hx
      rw [Option.some.injEq] at hx
      subst hx
      rw [hcr, r4 rfl]
    · intro hx
      rw [Option.some.injEq] at hx
      subst hx
      rw [hcr, r5 rfl]
    · intro hx
      rw [Option.some.injEq] at hx
      subst hx
      rw [hcr, r6 rfl]
    · rw [hce, rte, r2]
    · intro m2 hx
      rw [Option.some.injEq] at hx
      subst hx
      exact ⟨rsnap, rcpu, rtr⟩


theorem createFile_fail_panic (env : Env) (s : PState) (e : String)
    (hcr : env.createRes (filepathJoin s.prof.path s.prof.fileName) = Except.error e)
    (hpf : s.prof.panicIfFail = true) :
    createFile env s = .panicked e := by
  simp only [createFile, emit, hcr, logfS_prof]
  rw [if_pos hpf]

theorem createFile_panicked_imp (env : Env) (s : PState) (e : String)
    (h : createFile env s = .panicked e) :
    s.prof.panicIfFail = true ∧
    env.createRes (filepathJoin s.prof.path s.prof.fileName) = Except.error e := by
  cases hcr : env.createRes (filepathJoin s.prof.path s.prof.fileName) with
  | ok fd =>
    simp only [createFile, emit, hcr] at h
    exact Outcome.noConfusion h
  | error e0 =>
    simp only [createFile, emit, hcr, logfS_prof] at h
    cases hpf : s.prof.panicIfFail with
    | false =>
      simp only [hpf, Bool.false_eq_true, if_false] at h
      exact Outcome.noConfusion h
    | true =>
      rw [if_pos hpf] at h
      cases h
      exact ⟨rfl, rfl⟩

theorem startModeDispatch_create_panic (env : Env) (s : PState) (e : String)
    (hcr : env.createRes (filepathJoin s.prof.path s.prof.fileName) = Except.error e)
    (hpf : s.prof.panicIfFail = true) :
    startModeDispatch env s = .panicked e := by
  have hcf := createFile_fail_panic env s e hcr hpf
  unfold startModeDispatch
  cases s.prof.mode <;>
    simp only [startCpuMode, startMemMode, startMutexMode, startBlockMode, startTraceMode,
      startThreadCreationMode, startGoroutineMode, hcf]

theorem startModeDispatch_panicked_imp (env : Env) (s : PState) (e : String)
    (h : startModeDispatch env s = .panicked e) :
    s.prof.panicIfFail = true := by
  unfold startModeDispatch at h
  cases hm : s.prof.mode <;> rw [hm] at h
  case cpuMode =>
    unfold startCpuMode at h
    cases hcf : createFile env s with
    | panicked e2 =>
      rw [hcf] at h
      exact (createFile_panicked_imp env s e2 hcf).1
    | ok s1 =>
      rw [hcf] at h
      obtain ⟨hprof, _, _, _, _, _, _, _, _, _⟩ := createFile_ok env s s1 hcf
      have hPF : s1.prof.panicIfFail = s.prof.panicIfFail := by rw [hprof]
      cases hcs : env.cpuStartRes with
      | none =>
        rw [hcs] at h
        exact Outcome.noConfusion h
      | some e0 =>
        rw [hcs] at h
        simp only [logfS_prof, emit_prof] at h
        cases hpf : s1.prof.panicIfFail with
        | true => exact hPF.symm.trans hpf
        | false =>
          simp only [hpf, Bool.false_eq_true, if_false] at h
          exact Outcome.noConfusion h
  case traceMode =>
    unfold startTraceMode at h
    cases hcf : createFile env s with
    | panicked e2 =>
      rw [hcf] at h
      exact (createFile_panicked_imp env s e2 hcf).1
    | ok s1 =>
      rw [hcf] at h
      obtain ⟨hprof, _, _, _, _, _, _, _, _, _⟩ := createFile_ok env s s1 hcf
      have hPF : s1.prof.panicIfFail = s.prof.panicIfFail := by rw [hprof]
      cases hcs : env.traceStartRes with
      | none =>
        rw [hcs] at h
        exact Outcome.noConfusion h
      | some e0 =>
        rw [hcs] at h
        simp only [logfS_prof, emit_prof] at h
        cases hpf : s1.prof.panicIfFail with
        | true => exact hPF.symm.trans hpf
        | false =>
          simp only [hpf, Bool.false_eq_true, if_false] at h
          exact Outcome.noConfusion h
  case memMode =>
    unfold startMemMode at h
    cases hcf : createFile env s with
    | panicked e2 =>
      rw [hcf] at h
      exact (createFile_panicked_imp env s e2 hcf).1
    | ok s1 =>
      rw [hcf] at h
      exact Outcome.noConfusion h
  case mutexMode =>
    unfold startMutexMode at h
    cases hcf : createFile env s with
    | panicked e2 =>
      rw [hcf] at h
      exact (createFile_panicked_imp env s e2 hcf).1
    | ok s1 =>
      rw [hcf] at h
      exact Outcome.noConfusion h
  case blockMode =>
    unfold startBlockMode at h
    cases hcf : createFile env s with
    | panicked e2 =>
      rw [hcf] at h
      exact (createFile_panicked_imp env s e2 hcf).1
    | ok s1 =>
      rw [hcf] at h
      exact Outcome.noConfusion h
  case threadMode =>
    unfold startThreadCreationMode at h
    cases hcf : createFile env s with
    | panicked e2 =>
      rw [hcf] at h
      exact (createFile_panicked_imp env s e2 hcf).1
    | ok s1 =>
      rw [hcf] at h
      exact Outcome.noConfusion h
  case goroutineMode =>
    unfold startGoroutineMode at h
    cases hcf : createFile env s with
    | panicked e2 =>
      rw [hcf] at h
      exact (createFile_panicked_imp env s e2 hcf).1
    | ok s1 =>
      rw [hcf] at h
      exact Outcome.noConfusion h

theorem preparePath_panicked_imp (env : Env) (s : PState) (e : String)
    (h : preparePath env s = .panicked e) :
    prepFailure env s.prof = some e ∧ s.prof.panicIfFail = true := by
  by_cases hu : s.prof.useTempPath = true
  · cases ht : env.tempDirRes with
    | ok d =>
      rw [preparePath_of_none env s _ (by rw [if_pos hu, prepareTempPath_of_ok env s d ht])] at h
      exact Outcome.noConfusion h
    | error e0 =>
      rw [preparePath_of_some env s _ e0
        (by rw [if_pos hu, prepareTempPath_of_err env s e0 ht])] at h
      split at h
      next hpf =>
        cases h
        exact ⟨by rw [prepFailure, if_pos hu, ht], hpf⟩
      next hpf => exact Outcome.noConfusion h
  · by_cases hp : s.prof.path = ""
    · rw [preparePath_of_none env s _
        (by rw [if_neg hu, prepareCustomPath_of_blank env s hp])] at h
      exact Outcome.noConfusion h
    · by_cases hd : s.prof.path = DefaultPath
      · rw [preparePath_of_none env s _
          (by rw [if_neg hu, prepareCustomPath_of_default env s hd])] at h
        exact Outcome.noConfusion h
      · have heff : effectivePath s.prof = s.prof.path := by simp [effectivePath, hp]
        cases hm : env.mkdirRes s.prof.path with
        | none =>
          rw [preparePath_of_none env s _
            (by rw [if_neg hu, prepareCustomPath_of_custom env s hp hd, hm])] at h
          exact Outcome.noConfusion h
        | some e0 =>
          rw [preparePath_of_some env s _ e0
            (by rw [if_neg hu, prepareCustomPath_of_custom env s hp hd, hm])] at h
          split at h
          next hpf =>
            cases h
            refine ⟨?_, hpf⟩
            rw [prepFailure, if_neg hu, if_pos (by rw [heff]; exact hd), heff, hm]
          next hpf => exact Outcome.noConfusion h

theorem Start_no_panic (env : Env) (s : PState) (hpf : s.prof.panicIfFail = false) :
    ∃ s', Start env s = .ok s' := by
  by_cases h0 : s.prof.started = 0
  · unfold Start
    rw [if_pos h0]
    cases hpp : preparePath env { s with prof := { s.prof with started := 1 } } with
    | panicked e =>
      have h1 : s.prof.panicIfFail = true := (preparePath_panicked_imp env _ e hpp).2
      rw [hpf] at h1
      exact Bool.noConfusion h1
    | ok s1 =>
      cases hsd : startModeDispatch env s1 with
      | panicked e =>
        have hp1 := (preparePath_ok env _ s1 hpp).1
        have hpf1 : s1.prof.panicIfFail = false := by
          rw [hp1]
          exact hpf
        have h1 := startModeDispatch_panicked_imp env s1 e hsd
        rw [hpf1] at h1
        exact Bool.noConfusion h1
      | ok s2 =>
        refine ⟨startInterruptHook s2, ?_⟩
        show (match startModeDispatch env s1 with
            | Outcome.panicked e => Outcome.panicked e
            | Outcome.ok s2 => Outcome.ok (startInterruptHook s2)) = Outcome.ok
              (startInterruptHook s2)
        rw [hsd]
  · exact ⟨s, Start_lose env s h0⟩


theorem mkProfile_started (m : profileMode) (cfg : Config) :
    (mkProfile m cfg).started = 0 := by
  cases m <;> rfl

theorem mkProfile_mode (m : profileMode) (cfg : Config) :
    (mkProfile m cfg).mode = m := by
  cases m <;> rfl

theorem mkProfile_fileName (m : profileMode) (cfg : Config) :
    (mkProfile m cfg).fileName = defaultFileName m := by
  cases m <;> rfl

theorem mkProfile_internalCloser (m : profileMode) (cfg : Config) :
    (mkProfile m cfg).internalCloser = none := by
  cases m <;> rfl

theorem string_append_cancel_right (a b c : String) (h : a ++ c = b ++ c) : a = b := by
  apply String.ext
  have hd := congrArg String.data h
  rw [String.data_append, String.data_append] at hd
  exact List.append_cancel_right hd

theorem filepathJoin_rooted (dir f : String) (h : dir ≠ "") :
    ∃ rest, filepathJoin dir f = dir ++ rest ∧ (rest = f ∨ rest = "/" ++ f) := by
  unfold filepathJoin
  rw [if_neg h]
  by_cases he : dir.endsWith "/" = true
  · rw [if_pos he]
    exact ⟨f, rfl, Or.inl rfl⟩
  · rw [if_neg he]
    exact ⟨"/" ++ f, by rw [String.append_assoc], Or.inr rfl⟩

theorem filepathJoin_dir_inj (d1 d2 f : String) (h1 : d1.endsWith "/" = false)
    (h2 : d2.endsWith "/" = false) (h1e : d1 ≠ "") (h2e : d2 ≠ "")
    (hne : d1 ≠ d2) : filepathJoin d1 f ≠ filepathJoin d2 f := by
  intro hEq
  unfold filepathJoin at hEq
  rw [if_neg h1e, if_neg h2e, if_neg (by rw [h1]; exact Bool.false_ne_true),
    if_neg (by rw [h2]; exact Bool.false_ne_true)] at hEq
  have h3 := string_append_cancel_right (d1 ++ "/") (d2 ++ "/") f hEq
  exact hne (string_append_cancel_right d1 d2 "/" h3)

theorem Start_prep_panic (env : Env) (s : PState) (e : String)
    (h0 : s.prof.started = 0) (hpe : prepFailure env s.prof = some e)
    (hpf : s.prof.panicIfFail = true) :
    Start env s = Outcome.panicked e := by
  unfold Start
  rw [if_pos h0]
  have hpe2 : prepFailure env ({ s with
      prof := { s.prof with started := 1 } } : PState).prof = some e := hpe
  have hpf2 : ({ s with prof := { s.prof with started := 1 } } : PState).prof.panicIfFail
      = true := hpf
  rw [preparePath_fail_panic env _ e hpe2 hpf2]

theorem Start_create_panic (env : Env) (s : PState) (e : String)
    (h0 : s.prof.started = 0) (hpn : prepFailure env s.prof = none)
    (hce : env.createRes (filepathJoin (resolvedPath env s.prof) s.prof.fileName)
      = Except.error e)
    (hpf : s.prof.panicIfFail = true) :
    Start env s = Outcome.panicked e := by
  unfold Start
  rw [if_pos h0]
  cases hpp : preparePath env { s with prof := { s.prof with started := 1 } } with
  | panicked e2 =>
    have hx : prepFailure env s.prof = some e2 :=
      (preparePath_panicked_imp env _ e2 hpp).1
    rw [hpn] at hx
    exact Option.noConfusion hx
  | ok s1 =>
    obtain ⟨hp1, _, _⟩ := preparePath_ok env _ s1 hpp
    have hpath : s1.prof.path = resolvedPath env s.prof := by
      rw [hp1]
      rfl
    have hfn : s1.prof.fileName = s.prof.fileName := by rw [hp1]
    have hpf1 : s1.prof.panicIfFail = true := by
      rw [hp1]
      exact hpf
    have hsd : startModeDispatch env s1 = Outcome.panicked e := by
      refine startModeDispatch_create_panic env s1 e ?_ hpf1
      rw [hpath, hfn]
      exact hce
    show (match startModeDispatch env s1 with
        | Outcome.panicked e0 => Outcome.panicked e0
        | Outcome.ok s2 => Outcome.ok (startInterruptHook s2)) = Outcome.panicked e
    rw [hsd]


/-! ## The claims -/

/-- Claim C1: over the public call interface, the started flag moves 0 to 1
only through a Start call that wins the compare-and-swap and 1 to 0 only
through a Stop call that wins it; a Start that loses the CAS returns the
unchanged state, so it performed no path preparation, no file creation and no
logging, and a Stop that loses the CAS (including a Stop with no prior Start)
performs no work at all. -/
theorem C1_started_cas (env : Env) (c : Call) (s s' : PState)
    (h : step env c s = Outcome.ok s') :
    (s'.prof.started = 1 → s.prof.started ≠ 1 → c = Call.start ∧ s.prof.started = 0) ∧
    (s'.prof.started = 0 → s.prof.started ≠ 0 → c = Call.stop ∧ s.prof.started = 1) ∧
    (c = Call.start → s.prof.started ≠ 0 → Start env s = Outcome.ok s ∧ s' = s) ∧
    (c = Call.stop → s.prof.started ≠ 1 → Stop env s = s ∧ s' = s) := by
  cases c with
  | start =>
    have hS : Start env s = Outcome.ok s' := h
    by_cases h0 : s.prof.started = 0
    · obtain ⟨h1, _⟩ := Start_win env s s' h0 hS
      refine ⟨fun _ _ => ⟨rfl, h0⟩, ?_, ?_, fun hc => Call.noConfusion hc⟩
      · intro hz _
        rw [h1] at hz
        exact absurd hz one_ne_zero
      · intro _ hne
        exact absurd h0 hne
    · have hL := Start_lose env s h0
      rw [hL] at hS
      have hs2 : s' = s := by
        cases hS
        rfl
      subst hs2
      refine ⟨?_, ?_, fun _ _ => ⟨hL, rfl⟩, fun hc => Call.noConfusion hc⟩
      · intro hone hnotone
        exact absurd hone hnotone
      · intro hz hnz
        exact absurd hz hnz
  | stop =>
    have h2 : Outcome.ok (Stop env s) = Outcome.ok s' := h
    have hS : Stop env s = s' := by
      cases h2
      rfl
    by_cases h1 : s.prof.started = 1
    · obtain ⟨hz, _⟩ := Stop_win env s h1
      rw [hS] at hz
      refine ⟨?_, fun _ _ => ⟨rfl, h1⟩, fun hc => Call.noConfusion hc, ?_⟩
      · intro hone _
        rw [hz] at hone
        exact absurd hone zero_ne_one
      · intro _ hne
        exact absurd h1 hne
    · have hL := Stop_lose env s h1
      have hs2 : s' = s := by rw [← hS, hL]
      subst hs2
      refine ⟨?_, ?_, fun hc => Call.noConfusion hc, fun _ _ => ⟨hL, rfl⟩⟩
      · intro hone hnotone
        exact absurd hone hnotone
      · intro hz hnz
        exact absurd hz hnz

/-- Witness for C1: a Stop with no prior Start on a fresh default CPU session
is a no-op. -/
theorem C1_witness :
    Stop okEnv (initS (CPUProfile cfg0) rt0) = initS (CPUProfile cfg0) rt0 ∧
    initS (CPUProfile cfg0) rt0 = initS (CPUProfile cfg0) rt0 :=
  (C1_started_cas okEnv Call.stop (initS (CPUProfile cfg0) rt0)
      (initS (CPUProfile cfg0) rt0) rfl).2.2.2 rfl (by decide)

/-- Claim C2 is refuted for the mutex kind: with pre-Start mutex profile
fraction 5, a winning Start followed by a winning Stop leaves the fraction at
0 (`stopMutexMode` passes 0 to the runtime, not the saved pre-Start value),
and 0 is not the pre-Start value 5.  The block kind fails the same way; only
the memory kind restores the pre-Start value. -/
theorem C2_counterexample :
    Start okEnv (initS (MutexProfile cfg0) rt5) = Outcome.ok startedMutex5 ∧
    (initS (MutexProfile cfg0) rt5).rt.mutexProfileFraction = 5 ∧
    startedMutex5.prof.started = 1 ∧
    (Stop okEnv startedMutex5).rt.mutexProfileFraction = 0 ∧
    (0 : Int) ≠ 5 :=
  ⟨rfl, rfl, rfl, rfl, by decide⟩

/-- Claim C2 (amended): after a winning Start of a freshly constructed
session and a winning Stop, the memory kind restores the global memory sample
rate to its pre-Start value, while the mutex and block kinds reset their
switches to 0 (disabled) regardless of the pre-Start value. -/
theorem C2_switch_restoration_amended (env : Env) (m : profileMode) (cfg : Config)
    (rt : RuntimeState) (s' : PState)
    (h : Start env (initS (mkProfile m cfg) rt) = Outcome.ok s') :
    (m = profileMode.memMode →
      (Stop env s').rt.memProfileRate = rt.memProfileRate) ∧
    (m = profileMode.mutexMode → (Stop env s').rt.mutexProfileFraction = 0) ∧
    (m = profileMode.blockMode → (Stop env s').rt.blockProfileRate = 0) := by
  have h0 : (initS (mkProfile m cfg) rt).prof.started = 0 := mkProfile_started m cfg
  obtain ⟨h1, _, _, _, _, _, _, _, _, _, hic, _, _, _, _, hprev, _, _⟩ :=
    Start_win env (initS (mkProfile m cfg) rt) s' h0 h
  have hm0 : (initS (mkProfile m cfg) rt).prof.mode = m := mkProfile_mode m cfg
  rw [hm0] at hic
  obtain ⟨_, _, _, r4, r5, r6, _⟩ := Stop_win env s' h1
  refine ⟨?_, ?_, ?_⟩
  · intro hm
    subst hm
    rw [r4 hic, hprev, if_pos hm0]
    rfl
  · intro hm
    subst hm
    exact r5 hic
  · intro hm
    subst hm
    exact r6 hic

/-- Witness for the amended C2: a default memory session under the
all-success environment. -/
theorem C2_witness :
    (profileMode.memMode = profileMode.memMode →
      (Stop okEnv startedMem).rt.memProfileRate = rt0.memProfileRate) ∧
    (profileMode.memMode = profileMode.mutexMode →
      (Stop okEnv startedMem).rt.mutexProfileFraction = 0) ∧
    (profileMode.memMode = profileMode.blockMode →
      (Stop okEnv startedMem).rt.blockProfileRate = 0) :=
  C2_switch_restoration_amended okEnv profileMode.memMode cfg0 rt0 startedMem rfl

/-- Claim C6 is refuted on the rate clause: a configured (supplied)
MemProfileRate of -1 is not used; the constructor keeps it only when it is
positive, so the session gets the default 4096 instead of the supplied -1. -/
theorem C6_counterexample :
    ({ cfg0 with MemProfileRate := -1 } : Config).MemProfileRate = -1 ∧
    (MemProfile { cfg0 with MemProfileRate := -1 }).memProfileRate = 4096 ∧
    (-1 : Int) ≠ 4096 :=
  ⟨rfl, by decide, by decide⟩

/-- Claim C6 (amended): the memory-profile constructor performs no effects and
applies defaults as the code does: the configured rate is used exactly when it
is positive and replaced by 4096 otherwise, and the configured type is used
exactly when it is nonempty and replaced by "heap" otherwise. -/
theorem C6_memprofile_defaults_amended (cfg : Config) :
    (MemProfile cfg).memProfileRate
      = (if cfg.MemProfileRate > 0 then cfg.MemProfileRate else DefaultMemProfileRate) ∧
    (MemProfile cfg).memProfileType
      = (if cfg.MemProfileType ≠ "" then cfg.MemProfileType else DefaultMemProfileType) ∧
    (cfg.MemProfileRate > 0 → (MemProfile cfg).memProfileRate = cfg.MemProfileRate) ∧
    (cfg.MemProfileType ≠ "" → (MemProfile cfg).memProfileType = cfg.MemProfileType) ∧
    (MemProfile cfg).mode = profileMode.memMode ∧
    (MemProfile cfg).fileName = "mem.pprof" ∧
    DefaultMemProfileRate = 4096 ∧ DefaultMemProfileType = "heap" := by
  have h1 : (MemProfile cfg).memProfileRate
      = (if cfg.MemProfileRate > 0 then cfg.MemProfileRate else DefaultMemProfileRate) := rfl
  have h2 : (MemProfile cfg).memProfileType
      = (if cfg.MemProfileType ≠ "" then cfg.MemProfileType else DefaultMemProfileType) := rfl
  refine ⟨h1, h2, ?_, ?_, rfl, rfl, rfl, rfl⟩
  · intro h
    rw [h1, if_pos h]
  · intro h
    rw [h2, if_pos h]

/-- Claim C8: with the quiet flag set, the log and logf helpers emit nothing:
no standard-output line and no call of any method of an injected logger, for
every level and every message, and applying them to a session state leaves
the state unchanged. -/
theorem C8_quiet_suppresses_logging (p : Profile) (s : PState) (level : logLevel)
    (msg : String) (hq : p.quiet = true) (hs : s.prof = p) :
    p.logEvents level msg = [] ∧ p.logfEvents level msg = [] ∧
    logS s level msg = s ∧ logfS s level msg = s := by
  have hq2 : s.prof.quiet = true := by
    rw [hs]
    exact hq
  have h3 : s.prof.logEvents level msg = [] := by
    unfold Profile.logEvents
    rw [if_pos hq2]
  have h4 : s.prof.logfEvents level msg = [] := by
    unfold Profile.logfEvents
    rw [if_pos hq2]
  refine ⟨by unfold Profile.logEvents; rw [if_pos hq],
    by unfold Profile.logfEvents; rw [if_pos hq], ?_, ?_⟩
  · show emit s (s.prof.logEvents level msg) = s
    rw [h3]
    show { s with events := s.events ++ [] } = s
    rw [List.append_nil]
  · show emit s (s.prof.logfEvents level msg) = s
    rw [h4]
    show { s with events := s.events ++ [] } = s
    rw [List.append_nil]

/-- Witness for C8: a quiet default CPU session suppresses an info line. -/
theorem C8_witness :
    (CPUProfile cfgQuiet).logEvents logLevel.info "profiling enabled" = [] ∧
    (CPUProfile cfgQuiet).logfEvents logLevel.info "profiling enabled" = [] ∧
    logS stateQuiet logLevel.info "profiling enabled" = stateQuiet ∧
    logfS stateQuiet logLevel.info "profiling enabled" = stateQuiet :=
  C8_quiet_suppresses_logging (CPUProfile cfgQuiet) stateQuiet logLevel.info
    "profiling enabled" rfl rfl


/-- Claim C3: on a directory-preparation or file-creation failure during a
winning Start, the failure is logged at the error level (unless quiet); with
panic-on-failure set, Start aborts immediately carrying the triggering error;
with it unset, Start continues and returns normally.  There is no retry in
either case: the returned trace holds at most one file-creation call and at
most one directory-preparation call. -/
theorem C3_failure_logged_fatal_or_continue (env : Env) (s : PState) (e : String)
    (h0 : s.prof.started = 0)
    (hfail : prepFailure env s.prof = some e ∨
      (prepFailure env s.prof = none ∧
        env.createRes (filepathJoin (resolvedPath env s.prof) s.prof.fileName)
          = Except.error e)) :
    (s.prof.panicIfFail = true → Start env s = Outcome.panicked e) ∧
    (s.prof.panicIfFail = false → ∃ s', Start env s = Outcome.ok s' ∧
      ∃ t, s'.events = s.events ++ t ∧
        (s.prof.quiet = false → ∃ ev ∈ t, ev.isErrorLog = true) ∧
        (t.filter Event.isCreate).length ≤ 1 ∧
        (t.filter Event.isDirPrep).length ≤ 1) := by
  constructor
  · intro hpf
    rcases hfail with hpe | ⟨hpn, hce⟩
    · exact Start_prep_panic env s e h0 hpe hpf
    · exact Start_create_panic env s e h0 hpn hce hpf
  · intro hpf
    obtain ⟨s', hS⟩ := Start_no_panic env s hpf
    obtain ⟨_, _, _, _, _, _, _, _, _, _, _, _, _, _, _, _, _, t, het, hfcreate, hdlen,
      _, _, herrC, herrP, _, _⟩ := Start_win env s s' h0 hS
    refine ⟨s', hS, t, het, ?_, ?_, hdlen⟩
    · intro hq
      rcases hfail with hpe | ⟨hpn, hce⟩
      · exact herrP e hpe hq
      · exact herrC e hce hq
    · rw [hfcreate]
      exact Nat.le_refl 1

/-- Witness for C3: every file creation fails, panic-on-failure is off, so
the fresh default CPU session starts without aborting and logs the error. -/
theorem C3_witness :
    ((initS (CPUProfile cfg0) rt0).prof.panicIfFail = true →
      Start badCreateEnv (initS (CPUProfile cfg0) rt0) = Outcome.panicked "boom") ∧
    ((initS (CPUProfile cfg0) rt0).prof.panicIfFail = false →
      ∃ s', Start badCreateEnv (initS (CPUProfile cfg0) rt0) = Outcome.ok s' ∧
        ∃ t, s'.events = (initS (CPUProfile cfg0) rt0).events ++ t ∧
          ((initS (CPUProfile cfg0) rt0).prof.quiet = false →
            ∃ ev ∈ t, ev.isErrorLog = true) ∧
          (t.filter Event.isCreate).length ≤ 1 ∧
          (t.filter Event.isDirPrep).length ≤ 1) :=
  C3_failure_logged_fatal_or_continue badCreateEnv (initS (CPUProfile cfg0) rt0) "boom"
    rfl (Or.inr ⟨rfl, rfl⟩)

/-- Claim C4: for a running session whose installed stop closure is of a
snapshot kind (memory, mutex, block, thread-creation, goroutine), a winning
Stop looks up the runtime profile by the session's lookup name; on a nil
lookup it logs an error and continues (Stop is a total function, so the
process never aborts); otherwise it writes the snapshot to the session's
file; in both cases the file is closed and the "disabled" message is logged
unless quiet. -/
theorem C4_snapshot_flush (env : Env) (s : PState) (m : profileMode)
    (h1 : s.prof.started = 1) (hic : s.prof.internalCloser = some m)
    (hsnap : isSnapshotKind m = true) :
    (Stop env s).prof.started = 0 ∧
    ∃ t, (Stop env s).events = s.events ++ t
        ++ (if s.prof.closerHook = true then [Event.closerHookRun] else []) ∧
      Event.pprofLookup s.prof.lookupName ∈ t ∧
      (env.lookupOk s.prof.lookupName = true →
        Event.pprofWriteTo s.prof.lookupName s.prof.file ∈ t) ∧
      (env.lookupOk s.prof.lookupName = false → s.prof.quiet = false →
        ∃ ev ∈ t, ev.isErrorLog = true) ∧
      Event.fileClose s.prof.file ∈ t ∧
      (s.prof.quiet = false →
        ∃ ev ∈ t, ev.infoMsg = some (s.prof.mode.str ++ " profiling disabled")) := by
  obtain ⟨hz, _, _, _, _, _, t, hev, _, _, _, hall⟩ := Stop_win env s h1
  obtain ⟨hs, _, _⟩ := hall m hic
  exact ⟨hz, t, hev, (hs hsnap).1, (hs hsnap).2.1, (hs hsnap).2.2.1,
    (hs hsnap).2.2.2.1, (hs hsnap).2.2.2.2⟩

/-- Witness for C4: a running default mutex session stopped under the
all-success environment. -/
theorem C4_witness :
    (Stop okEnv runningMutex).prof.started = 0 ∧
    ∃ t, (Stop okEnv runningMutex).events = runningMutex.events ++ t
        ++ (if runningMutex.prof.closerHook = true then [Event.closerHookRun] else []) ∧
      Event.pprofLookup runningMutex.prof.lookupName ∈ t ∧
      (okEnv.lookupOk runningMutex.prof.lookupName = true →
        Event.pprofWriteTo runningMutex.prof.lookupName runningMutex.prof.file ∈ t) ∧
      (okEnv.lookupOk runningMutex.prof.lookupName = false →
        runningMutex.prof.quiet = false → ∃ ev ∈ t, ev.isErrorLog = true) ∧
      Event.fileClose runningMutex.prof.file ∈ t ∧
      (runningMutex.prof.quiet = false →
        ∃ ev ∈ t, ev.infoMsg
          = some (runningMutex.prof.mode.str ++ " profiling disabled")) :=
  C4_snapshot_flush okEnv runningMutex profileMode.mutexMode rfl rfl rfl

/-- Claim C5: a winning Start resolves the output directory as the code does:
the environment-created temporary directory when "use temp path" is set
(distinct temporary directories give distinct output paths across runs), the
configured directory (created via MkdirAll) when a non-blank custom path is
configured, and the current directory "./" otherwise; the output file path is
the resolved directory joined with the session's file name, hence rooted at
that directory. -/
theorem C5_output_path_resolution (env : Env) (s s' : PState)
    (h0 : s.prof.started = 0) (h : Start env s = Outcome.ok s') :
    s'.prof.path = resolvedPath env s.prof ∧
    s'.prof.filePath = filepathJoin (resolvedPath env s.prof) s.prof.fileName ∧
    (s.prof.useTempPath = true → ∀ d, env.tempDirRes = Except.ok d →
      s'.prof.path = d ∧ ∃ t, s'.events = s.events ++ t ∧ Event.tempDirMk ∈ t) ∧
    (s.prof.useTempPath = false → s.prof.path = "" → s'.prof.path = DefaultPath) ∧
    (s.prof.useTempPath = false → s.prof.path ≠ "" → s'.prof.path = s.prof.path ∧
      (s.prof.path ≠ DefaultPath → env.mkdirRes s.prof.path = none →
        ∃ t, s'.events = s.events ++ t ∧ Event.mkdirAll s.prof.path ∈ t)) ∧
    (resolvedPath env s.prof ≠ "" → ∃ rest,
      s'.prof.filePath = resolvedPath env s.prof ++ rest ∧
      (rest = s.prof.fileName ∨ rest = "/" ++ s.prof.fileName)) ∧
    (∀ env2 s2' d1 d2, s.prof.useTempPath = true →
      env.tempDirRes = Except.ok d1 → env2.tempDirRes = Except.ok d2 →
      d1.endsWith "/" = false → d2.endsWith "/" = false → d1 ≠ "" → d2 ≠ "" →
      d1 ≠ d2 → Start env2 s = Outcome.ok s2' →
      s'.prof.filePath ≠ s2'.prof.filePath) := by
  obtain ⟨_, _, _, _, _, _, _, _, _, _, _, hpath, hfp, _, _, _, _, t, het, _, _, _, _,
    _, _, hmk, htd⟩ := Start_win env s s' h0 h
  have hresT : s.prof.useTempPath = true → ∀ d, env.tempDirRes = Except.ok d →
      resolvedPath env s.prof = d := by
    intro hu d htdr
    unfold resolvedPath
    rw [if_pos hu, htdr]
  refine ⟨hpath, hfp, ?_, ?_, ?_, ?_, ?_⟩
  · intro hu d htdr
    exact ⟨by rw [hpath, hresT hu d htdr], t, het, htd hu⟩
  · intro hu hp
    rw [hpath]
    unfold resolvedPath
    rw [if_neg (by rw [hu]; exact Bool.false_ne_true)]
    unfold effectivePath
    rw [if_pos hp]
  · intro hu hp
    have heff : effectivePath s.prof = s.prof.path := by
      unfold effectivePath
      rw [if_neg hp]
    have hres : resolvedPath env s.prof = s.prof.path := by
      unfold resolvedPath
      rw [if_neg (by rw [hu]; exact Bool.false_ne_true)]
      exact heff
    refine ⟨by rw [hpath, hres], ?_⟩
    intro hd hmkn
    refine ⟨t, het, ?_⟩
    have := hmk hu (by rw [heff]; exact hd) (by rw [heff]; exact hmkn)
    rw [heff] at this
    exact this
  · intro hne
    obtain ⟨rest, hjoin, hor⟩ :=
      filepathJoin_rooted (resolvedPath env s.prof) s.prof.fileName hne
    exact ⟨rest, by rw [hfp, hjoin], hor⟩
  · intro env2 s2' d1 d2 hu htd1 htd2 he1 he2 hn1 hn2 hne h2
    obtain ⟨_, _, _, _, _, _, _, _, _, _, _, _, hfp2, _⟩ :=
      Start_win env2 s s2' h0 h2
    have hr1 : resolvedPath env s.prof = d1 := by
      unfold resolvedPath
      rw [if_pos hu, htd1]
    have hr2 : resolvedPath env2 s.prof = d2 := by
      unfold resolvedPath
      rw [if_pos hu, htd2]
    rw [hfp, hfp2, hr1, hr2]
    exact filepathJoin_dir_inj d1 d2 s.prof.fileName he1 he2 hn1 hn2 hne

/-- Witness for C5: a CPU session with the custom output directory "out"
under the all-success environment. -/
theorem C5_witness :
    startedCustom.prof.path
      = resolvedPath okEnv (initS (CPUProfile cfgCustom) rt0).prof ∧
    startedCustom.prof.filePath
      = filepathJoin (resolvedPath okEnv (initS (CPUProfile cfgCustom) rt0).prof)
          (initS (CPUProfile cfgCustom) rt0).prof.fileName :=
  ⟨(C5_output_path_resolution okEnv (initS (CPUProfile cfgCustom) rt0) startedCustom
      rfl rfl).1,
   (C5_output_path_resolution okEnv (initS (CPUProfile cfgCustom) rt0) startedCustom
      rfl rfl).2.1⟩


/-- Claim C7: each kind-specific constructor fixes the kind's default file
name (cpu.pprof, mem.pprof, mutex.pprof, block.pprof, trace.pprof,
thread.pprof, goroutine.pprof), and a winning Start followed by a winning
Stop performs exactly one file creation, of that name joined to the resolved
output directory. -/
theorem C7_default_filename_single_file (env : Env) (m : profileMode) (cfg : Config)
    (rt : RuntimeState) (s' : PState)
    (h : Start env (initS (mkProfile m cfg) rt) = Outcome.ok s') :
    (mkProfile m cfg).fileName = defaultFileName m ∧
    (Stop env s').events.filter Event.isCreate
      = [Event.osCreate (filepathJoin (resolvedPath env (mkProfile m cfg))
          (defaultFileName m))] := by
  have h0 : (initS (mkProfile m cfg) rt).prof.started = 0 := mkProfile_started m cfg
  obtain ⟨h1, _, _, _, _, _, _, _, _, _, _, _, _, _, _, _, _, t, het, hfc, _, _, _, _,
    _, _, _⟩ := Start_win env (initS (mkProfile m cfg) rt) s' h0 h
  obtain ⟨_, _, _, _, _, _, t2, het2, _, hfc2, _, _⟩ := Stop_win env s' h1
  have hie : (initS (mkProfile m cfg) rt).events = [] := rfl
  rw [hie, List.nil_append] at het
  have hrp : resolvedPath env (initS (mkProfile m cfg) rt).prof
      = resolvedPath env (mkProfile m cfg) := rfl
  have hfn : (initS (mkProfile m cfg) rt).prof.fileName = defaultFileName m :=
    mkProfile_fileName m cfg
  rw [hrp, hfn] at hfc
  refine ⟨mkProfile_fileName m cfg, ?_⟩
  rw [het2, het, List.filter_append, List.filter_append, hfc, hfc2]
  have hite : (if s'.prof.closerHook = true then [Event.closerHookRun]
      else ([] : List Event)).filter Event.isCreate = [] := by
    split <;> rfl
  rw [hite, List.append_nil, List.append_nil]

/-- Witness for C7: a default thread-creation session run to completion under
the all-success environment. -/
theorem C7_witness :
    (mkProfile profileMode.threadMode cfg0).fileName
      = defaultFileName profileMode.threadMode ∧
    (Stop okEnv startedThread).events.filter Event.isCreate
      = [Event.osCreate (filepathJoin
          (resolvedPath okEnv (mkProfile profileMode.threadMode cfg0))
          (defaultFileName profileMode.threadMode))] :=
  C7_default_filename_single_file okEnv profileMode.threadMode cfg0 rt0 startedThread
    rfl

/-- Claim C9 (implicit): when file creation fails during a winning Start and
panic-on-failure is unset, Start still returns normally as if it had
succeeded: the started flag is 1, the kind-specific stop closure is
installed, the "enabled" info message naming the target file path is logged
(unless quiet), but the file handle is nil; a later winning Stop therefore
still runs the kind-specific flush, closing the absent (nil) file. -/
theorem C9_create_failure_continues (env : Env) (s : PState) (e : String)
    (h0 : s.prof.started = 0) (hpf : s.prof.panicIfFail = false)
    (hce : env.createRes (filepathJoin (resolvedPath env s.prof) s.prof.fileName)
      = Except.error e) :
    ∃ s', Start env s = Outcome.ok s' ∧
      s'.prof.started = 1 ∧
      s'.prof.internalCloser = some s.prof.mode ∧
      s'.prof.file = none ∧
      (s.prof.quiet = false → ∃ t, s'.events = s.events ++ t ∧
        ∃ pre, ∃ ev ∈ t, ev.infoMsg
          = some (pre ++ filepathJoin (resolvedPath env s.prof) s.prof.fileName)) ∧
      ∃ t2, (Stop env s').events = s'.events ++ t2
          ++ (if s'.prof.closerHook = true then [Event.closerHookRun] else []) ∧
        (isSnapshotKind s.prof.mode = true →
          Event.pprofLookup s.prof.lookupName ∈ t2 ∧ Event.fileClose none ∈ t2) ∧
        (s.prof.mode = profileMode.cpuMode →
          Event.pprofStopCPU ∈ t2 ∧ Event.fileClose none ∈ t2) ∧
        (s.prof.mode = profileMode.traceMode → Event.traceStop ∈ t2) := by
  obtain ⟨s', hS⟩ := Start_no_panic env s hpf
  obtain ⟨h1, _, _, _, _, _, _, hln, _, _, hic, _, _, _, hferr, _, _, t, het, _, _, _,
    hinfo, _, _, _, _⟩ := Start_win env s s' h0 hS
  have hfile : s'.prof.file = none := hferr e hce
  obtain ⟨_, _, _, _, _, _, t2, het2, _, _, _, hall⟩ := Stop_win env s' h1
  obtain ⟨hsnap, hcpu, htr⟩ := hall s.prof.mode hic
  refine ⟨s', hS, h1, hic, hfile, ?_, t2, het2, ?_, ?_, htr⟩
  · intro hq
    exact ⟨t, het, hinfo hq⟩
  · intro hk
    obtain ⟨hlk, _, _, hclose, _⟩ := hsnap hk
    rw [hln] at hlk
    rw [hfile] at hclose
    exact ⟨hlk, hclose⟩
  · intro hk
    obtain ⟨hstop, hclose⟩ := hcpu hk
    rw [hfile] at hclose
    exact ⟨hstop, hclose⟩

/-- Witness for C9: a default goroutine session in an environment where every
file creation fails. -/
theorem C9_witness :
    ∃ s', Start badCreateEnv (initS (GoroutineProfile cfg0) rt0) = Outcome.ok s' ∧
      s'.prof.started = 1 ∧
      s'.prof.internalCloser = some (initS (GoroutineProfile cfg0) rt0).prof.mode ∧
      s'.prof.file = none ∧
      ((initS (GoroutineProfile cfg0) rt0).prof.quiet = false →
        ∃ t, s'.events = (initS (GoroutineProfile cfg0) rt0).events ++ t ∧
          ∃ pre, ∃ ev ∈ t, ev.infoMsg = some (pre ++
            filepathJoin
              (resolvedPath badCreateEnv (initS (GoroutineProfile cfg0) rt0).prof)
              (initS (GoroutineProfile cfg0) rt0).prof.fileName)) ∧
      ∃ t2, (Stop badCreateEnv s').events = s'.events ++ t2
          ++ (if s'.prof.closerHook = true then [Event.closerHookRun] else []) ∧
        (isSnapshotKind (initS (GoroutineProfile cfg0) rt0).prof.mode = true →
          Event.pprofLookup (initS (GoroutineProfile cfg0) rt0).prof.lookupName ∈ t2 ∧
          Event.fileClose none ∈ t2) ∧
        ((initS (GoroutineProfile cfg0) rt0).prof.mode = profileMode.cpuMode →
          Event.pprofStopCPU ∈ t2 ∧ Event.fileClose none ∈ t2) ∧
        ((initS (GoroutineProfile cfg0) rt0).prof.mode = profileMode.traceMode →
          Event.traceStop ∈ t2) :=
  C9_create_failure_continues badCreateEnv (initS (GoroutineProfile cfg0) rt0) "boom"
    rfl rfl rfl

/-- Claim C10 (implicit): a winning Start always installs the kind-specific
internal stop closure (it is non-nil for all seven kinds), so a winning Stop
first runs that closure's stop/flush work and only afterwards runs the
caller-supplied closer hook, the latter exactly when one was configured; with
no closer hook, Stop adds nothing after the flush events. -/
theorem C10_stop_closure_then_hook (env : Env) (s s' : PState)
    (h0 : s.prof.started = 0) (h : Start env s = Outcome.ok s') :
    s'.prof.internalCloser = some s.prof.mode ∧
    s'.prof.internalCloser ≠ none ∧
    ∃ t, Event.closerHookRun ∉ t ∧
      (s.prof.mode = profileMode.cpuMode → Event.pprofStopCPU ∈ t) ∧
      (s.prof.mode = profileMode.traceMode → Event.traceStop ∈ t) ∧
      (isSnapshotKind s.prof.mode = true →
        Event.pprofLookup s'.prof.lookupName ∈ t) ∧
      (s'.prof.closerHook = true →
        (Stop env s').events = s'.events ++ t ++ [Event.closerHookRun]) ∧
      (s'.prof.closerHook = false → (Stop env s').events = s'.events ++ t) := by
  obtain ⟨h1, _, _, _, _, _, _, _, _, _, hic, _⟩ := Start_win env s s' h0 h
  obtain ⟨_, _, _, _, _, _, t, hev, hnm, _, _, hall⟩ := Stop_win env s' h1
  obtain ⟨hsnap, hcpu, htr⟩ := hall s.prof.mode hic
  refine ⟨hic, by rw [hic]; exact fun hx => Option.noConfusion hx,
    t, hnm, fun hm => (hcpu hm).1, htr, fun hk => (hsnap hk).1, ?_, ?_⟩
  · intro hch
    rw [hev, if_pos hch]
  · intro hch
    rw [hev, if_neg (by rw [hch]; exact Bool.false_ne_true), List.append_nil]

/-- Witness for C10: a trace session with a configured closer hook under the
all-success environment. -/
theorem C10_witness :
    startedTraceHook.prof.internalCloser
      = some (initS (TraceProfile cfgHook) rt0).prof.mode ∧
    startedTraceHook.prof.internalCloser ≠ none ∧
    ∃ t, Event.closerHookRun ∉ t ∧
      ((initS (TraceProfile cfgHook) rt0).prof.mode = profileMode.cpuMode →
        Event.pprofStopCPU ∈ t) ∧
      ((initS (TraceProfile cfgHook) rt0).prof.mode = profileMode.traceMode →
        Event.traceStop ∈ t) ∧
      (isSnapshotKind (initS (TraceProfile cfgHook) rt0).prof.mode = true →
        Event.pprofLookup startedTraceHook.prof.lookupName ∈ t) ∧
      (startedTraceHook.prof.closerHook = true →
        (Stop okEnv startedTraceHook).events
          = startedTraceHook.events ++ t ++ [Event.closerHookRun]) ∧
      (startedTraceHook.prof.closerHook = false →
        (Stop okEnv startedTraceHook).events = startedTraceHook.events ++ t) :=
  C10_stop_closure_then_hook okEnv (initS (TraceProfile cfgHook) rt0) startedTraceHook
    rfl rfl

end MultiProfile
